import Mathlib

/-!
# Verification of the swapchain ACCS orchestrator

A shallow embedding of `src/pkg/accs/accs.ts` (the atomic cross-chain swap
orchestrator): the parsed configuration, the four role-by-direction flows
(`proposeBTSForBTC`, `proposeBTCForBTS`, `takeBTSForBTC`, `takeBTCForBTS`)
and the `run` dispatcher.

Modelling conventions:
* JavaScript numbers are modelled as `ℚ`; `Math.round` as `jsRound`
  (floor of `x + 1/2`, which is JavaScript's rounding of ties toward `+∞`).
* Chain adapters (`BitcoinAPI`, `BitsharesAPI`, the Bitshares HTLC wrapper)
  are oracles supplied through environment records: each polling call is a
  function of the iteration index returning `Except String _`, an error
  standing for a rejected promise.
* The polling loops are fuel-indexed (`pollLoop`); `LoopRes.fuelOut` marks
  fuel exhaustion, `LoopRes.thrown` an uncaught promise rejection escaping
  the loop body.
* Parts of the repository outside `src/` (the `BitcoinHTLC` engine and the
  `Timer`) are modelled from the spec where noted in doc comments.
-/

/-- JavaScript `Math.round`: round half toward positive infinity,
`⌊q + 1/2⌋` (stated via the computable `Rat.floor`). -/
def jsRound (q : ℚ) : ℤ := (q + 1/2).floor

/-- `jsRound` agrees with the mathematical floor of `q + 1/2`. -/
theorem jsRound_eq_floor (q : ℚ) : jsRound q = ⌊q + 1/2⌋ := by
  rw [jsRound, Rat.floor_def', Rat.floor_def]

/-- JavaScript `Math.round(x / y)` for integer operands (the only divisions
the flows perform): the floor of `x/y + 1/2`, computed on integers. -/
def jsRoundDiv (x y : ℤ) : ℤ := (2 * x + y) / (2 * y)

/-- `jsRoundDiv` is the mathematical `⌊x/y + 1/2⌋` for a positive divisor,
i.e. exactly `Math.round` of the rational quotient. -/
theorem jsRoundDiv_eq_floor (x y : ℤ) (hy : 0 < y) :
    jsRoundDiv x y = ⌊(x : ℚ) / (y : ℚ) + 1/2⌋ := by
  have h2y : ((2 * y : ℤ) : ℚ) ≠ 0 := by
    exact_mod_cast mul_ne_zero two_ne_zero (ne_of_gt hy)
  have harg : (x : ℚ) / (y : ℚ) + 1/2 = ((2 * x + y : ℤ) : ℚ) / ((2 * y : ℤ) : ℚ) := by
    push_cast
    field_simp
    ring
  have hd : ((2 * y : ℤ).toNat : ℤ) = 2 * y := Int.toNat_of_nonneg (by positivity)
  have hdq : (((2 * y : ℤ).toNat : ℕ) : ℚ) = ((2 * y : ℤ) : ℚ) := by
    exact_mod_cast congrArg (fun z : ℤ => (z : ℚ)) hd
  rw [jsRoundDiv, harg, ← hdq, Rat.floor_intCast_div_natCast, hd]

/-- The `Secret` record: an optional preimage and its SHA256 hash
(the accepter starts with the hash only). -/
structure Secret where
  preimage : Option String
  hash : String
deriving DecidableEq, Repr

/-- Raw user input, interface `ACCSFields` of `accs.ts`. -/
structure ACCSFields where
  mode : String
  networkToTrade : String
  currencyToGive : String
  amountToSend : ℚ
  rate : ℚ
  amountToReceive : ℚ
  bitcoinPrivateKey : String
  bitsharesPrivateKey : String
  counterpartyBitcoinPublicKey : String
  counterpartyBitsharesAccountName : String
  bitcoinTxID : String
  priority : ℚ
  secret : Secret
deriving DecidableEq, Repr

/-- Parsed configuration, interface `ACCSConfig` of `accs.ts`.  Key pairs are
modelled by their compressed public keys (strings). -/
structure ACCSConfig where
  mode : String
  type : String
  priority : ℚ
  bitsharesAccountID : String
  bitsharesPrivateKey : String
  counterpartyBitsharesAccountID : String
  amountBTSMini : ℤ
  amountSatoshi : ℤ
  keyPairCompressedBTC : String
  counterpartyKeyPairCompressedBTC : String
  timelockBTC : ℤ
  timelockBTS : ℤ
  secret : Secret
  bitcoinTxID : String
  network : String
  networkName : String
  bitsharesAsset : String
  bitsharesEndpoint : String
  checkAPIInterval : ℤ
deriving DecidableEq, Repr

/-- Modelled from the spec: the data determining a `BitcoinHTLC` redeem script
(section 4.5: "Construct the redeem script from
(hash, sequence, sender.pubkey, receiver.pubkey)"); `btcHTLC.ts` is not under
`src/`, only the orchestrator that calls it. -/
structure RedeemScriptData where
  hash : String
  sequence : ℤ
  senderPub : String
  receiverPub : String
deriving DecidableEq, Repr

/-- Modelled from the spec: the `Payment` returned by `BitcoinHTLC.getP2WSH`,
determined by the network and the redeem script. -/
structure Payment where
  network : String
  script : RedeemScriptData
deriving DecidableEq, Repr

/-- Modelled from the spec: `BitcoinHTLC.getP2WSH(hash, sequence)` is pure and
is determined by the instance's network, sender and receiver public keys
together with the hash and sequence arguments (spec section 4.5). -/
def getP2WSH (network senderPub receiverPub hash : String) (sequence : ℤ) :
    Payment :=
  { network := network
    script :=
      { hash := hash, sequence := sequence
        senderPub := senderPub, receiverPub := receiverPub } }

/-- Chain-facing actions performed by `parseUserInput`, in order. -/
inductive ParseAction where
  | wsConnect (endpoint : String)
  | toAccountID (privateKey networkToTrade : String)
  | getAccountID (name : String)
  | timerToBTS
deriving DecidableEq, Repr

/-- Oracles consumed by `parseUserInput`: public-key derivation from the WIF
key, the two Bitshares account lookups, and the value of `timer.toBTS()`
(modelled from the spec, section 4.2: `H * medianBlockTimeSeconds` via the
chain adapter; `timer.ts` is not under `src/`). -/
structure ParseEnv where
  wifToPub : String → String
  toAccountID : String → String → String
  getAccountID : String → String
  timerToBTS : ℤ

/-- Modelled from the spec: `Timer.toBTC()` returns the target confirmation
horizon `H`; `accs.ts` constructs `new Timer(6, ...)`, so the value is 6. -/
def timerToBTC : ℤ := 6

/-- `ACCS.parseUserInput`: builds the config from raw fields.  Returns the
config together with the ordered list of chain-facing actions it performed
(WebSocket connection, two account lookups, the timer's chain query). -/
def parseUserInput (fields : ACCSFields) (env : ParseEnv) :
    ACCSConfig × List ParseAction :=
  let mainnet := fields.networkToTrade = "mainnet"
  let endpoint :=
    if mainnet then "wss://api.dex.trading/" else "wss://testnet.dex.trading/"
  let cfg : ACCSConfig :=
    { mode := fields.mode
      type := fields.currencyToGive
      priority := fields.priority
      bitsharesAccountID :=
        env.toAccountID fields.bitsharesPrivateKey fields.networkToTrade
      bitsharesPrivateKey := fields.bitsharesPrivateKey
      counterpartyBitsharesAccountID :=
        env.getAccountID fields.counterpartyBitsharesAccountName
      amountBTSMini :=
        if fields.currencyToGive = "BTC" then
          jsRound (fields.amountToReceive * 100000)
        else jsRound (fields.amountToSend * 100000)
      amountSatoshi :=
        if fields.currencyToGive = "BTC" then
          jsRound (fields.amountToSend * 100000000)
        else jsRound (fields.amountToReceive * 100000000)
      keyPairCompressedBTC := env.wifToPub fields.bitcoinPrivateKey
      counterpartyKeyPairCompressedBTC := fields.counterpartyBitcoinPublicKey
      timelockBTC := timerToBTC
      timelockBTS := env.timerToBTS
      secret := fields.secret
      bitcoinTxID := fields.bitcoinTxID
      network := if mainnet then "bitcoin" else "testnet"
      networkName := fields.networkToTrade
      bitsharesAsset := if mainnet then "BTS" else "TEST"
      bitsharesEndpoint := endpoint
      checkAPIInterval := 4 }
  (cfg,
    [ParseAction.wsConnect endpoint,
     ParseAction.toAccountID fields.bitsharesPrivateKey fields.networkToTrade,
     ParseAction.getAccountID fields.counterpartyBitsharesAccountName,
     ParseAction.timerToBTS])

/-- Result of a fuel-indexed polling loop: normal exit with the final state,
iteration count and remaining countdown; an uncaught rejection thrown out of
the loop body; or fuel exhaustion (the real loop would still be running). -/
inductive LoopRes (σ : Type) where
  | out (st : σ) (iters : ℕ) (ttw : ℤ)
  | thrown (e : String)
  | fuelOut
deriving DecidableEq, Repr

/-- Generic polling loop shared by all six `while` loops of `accs.ts`:
while `cond st ttw` holds, run the body `stepF` at the current iteration
index (an `Except.error` models an uncaught promise rejection and aborts),
then decrease the countdown by `dec` and repeat. -/
def pollLoop {σ : Type} (cond : σ → ℤ → Bool)
    (stepF : ℕ → σ → Except String σ) (dec : ℤ) :
    ℕ → ℤ → ℕ → σ → LoopRes σ
  | fuel, ttw, n, st =>
    if cond st ttw then
      match fuel with
      | 0 => .fuelOut
      | fuel' + 1 =>
        match stepF n st with
        | .error e => .thrown e
        | .ok st' => pollLoop cond stepF dec fuel' (ttw - dec) (n + 1) st'
    else .out st n ttw

/-- A loop whose guard holds takes one step: a body error is thrown,
a body success recurses with one less fuel. -/
theorem pollLoop_go {σ : Type} {cond : σ → ℤ → Bool}
    {stepF : ℕ → σ → Except String σ} {dec ttw : ℤ} {fuel n : ℕ} {st : σ}
    (h : cond st ttw = true) :
    pollLoop cond stepF dec (fuel + 1) ttw n st =
      match stepF n st with
      | .error e => .thrown e
      | .ok st' => pollLoop cond stepF dec fuel (ttw - dec) (n + 1) st' := by
  rw [pollLoop.eq_def]
  simp [h]

/-- Iteration bound for countdown loops: when the guard forces a positive
countdown and each iteration decreases it by `dec > 0`, a normal exit happens
within `⌈ttw / dec⌉ = (ttw + dec - 1) / dec` iterations of the start index. -/
theorem pollLoop_out_iters {σ : Type} {cond : σ → ℤ → Bool}
    {stepF : ℕ → σ → Except String σ} {dec : ℤ}
    (hdec : 0 < dec) (hcond : ∀ st ttw, cond st ttw = true → 0 < ttw) :
    ∀ {fuel : ℕ} {ttw : ℤ} {n : ℕ} {st st' : σ} {n' : ℕ} {ttw' : ℤ},
      pollLoop cond stepF dec fuel ttw n st = .out st' n' ttw' →
      (n' : ℤ) ≤ (n : ℤ) + max 0 ((ttw + dec - 1) / dec) := by
  intro fuel
  induction fuel with
  | zero =>
    intro ttw n st st' n' ttw' h
    rw [pollLoop.eq_def] at h
    by_cases hc : cond st ttw = true
    · simp [hc] at h
    · simp only [hc] at h
      simp only [Bool.false_eq_true, if_false, LoopRes.out.injEq] at h
      obtain ⟨_, h2, _⟩ := h
      subst h2
      have : (0 : ℤ) ≤ max 0 ((ttw + dec - 1) / dec) := le_max_left 0 _
      omega
  | succ fuel ih =>
    intro ttw n st st' n' ttw' h
    rw [pollLoop.eq_def] at h
    by_cases hc : cond st ttw = true
    · simp only [hc, if_true] at h
      cases hstep : stepF n st with
      | error e => rw [hstep] at h; exact absurd h (by simp)
      | ok st'' =>
        rw [hstep] at h
        have hb := ih h
        have httw : 0 < ttw := hcond st ttw hc
        have hceil1 : (1 : ℤ) ≤ (ttw + dec - 1) / dec := by
          rw [Int.le_ediv_iff_mul_le hdec]
          omega
        have hstepdown : (ttw - dec + dec - 1) / dec = (ttw + dec - 1) / dec - 1 := by
          have h1 : ttw + dec - 1 = (ttw - dec + dec - 1) + 1 * dec := by ring
          rw [h1, Int.add_mul_ediv_right _ _ (ne_of_gt hdec)]
          omega
        rw [hstepdown] at hb
        have hmax1 : max 0 ((ttw + dec - 1) / dec - 1) = (ttw + dec - 1) / dec - 1 := by
          omega
        have hmax2 : max 0 ((ttw + dec - 1) / dec) = (ttw + dec - 1) / dec := by
          omega
        rw [hmax1] at hb
        rw [hmax2]
        omega
    · simp only [hc] at h
      simp only [Bool.false_eq_true, if_false, LoopRes.out.injEq] at h
      obtain ⟨_, h2, _⟩ := h
      subst h2
      have : (0 : ℤ) ≤ max 0 ((ttw + dec - 1) / dec) := le_max_left 0 _
      omega

/-! ## The four flows

Each flow takes the parsed config, an environment of chain oracles and a
fuel bound for its polling loops, and returns a run record: the final config,
the arguments of every HTLC it created, the raw results of its loops, whether
the pre-built refund hex was pushed, and the exit path taken. -/

/-- Arguments passed to `BitcoinHTLC.create` (interface `HTLCConfigBTC`). -/
structure BTCCreateArgs where
  transactionID : String
  amount : ℤ
  sequence : ℤ
  hash : String
deriving DecidableEq, Repr

/-- Arguments passed to `BitsharesHTLC.create` (interface `HTLCConfigBTS`). -/
structure BTSCreateArgs where
  amount : ℤ
  asset : String
  time : ℤ
  hash : String
deriving DecidableEq, Repr

/-- Loop state of `proposeBTSForBTC`: the `success` flag of the Bitshares
redeem attempts and the Bitcoin block height last observed. -/
structure PBFBSt where
  success : Bool
  height : ℤ
deriving DecidableEq, Repr

/-- Oracles for `proposeBTSForBTC`.  `refundHex` and `fundingHeight` are
modelled from the spec (section 4.5): they are what `BitcoinHTLC.create`
returns and what `getFundingTxBlockHeight` records when the funding
transaction is broadcast (`btcHTLC.ts` is not under `src/`). -/
structure PBFBEnv where
  refundHex : String
  fundingHeight : ℤ
  redeemResult : ℕ → Except String Bool
  lastBlock : ℕ → ℤ
  pushTX : String → String

/-- Guard of the `proposeBTSForBTC` polling loop:
`!success && currentBlockHeight < maxBlockHeight`. -/
def pbfbCond (maxH : ℤ) (st : PBFBSt) (_ttw : ℤ) : Bool :=
  !st.success && decide (st.height < maxH)

/-- Body of the `proposeBTSForBTC` polling loop: attempt the Bitshares
redeem (a rejection is caught and swallowed, leaving `success` unchanged),
then refresh the block height from `getLastBlock`. -/
def pbfbStep (env : PBFBEnv) (n : ℕ) (st : PBFBSt) : Except String PBFBSt :=
  .ok { success := match env.redeemResult n with
          | .ok b => b
          | .error _ => st.success
        height := env.lastBlock n }

/-- Exit paths of `proposeBTSForBTC`: the loop redeemed the Bitshares HTLC,
or it timed out and the refund hex was pushed (then an error is thrown), or
fuel ran out. -/
inductive PBFBOutcome where
  | redeemed
  | refunded (refundTxID : String)
  | chainError (e : String)
  | fuelExhausted
deriving DecidableEq, Repr

/-- Run record of `proposeBTSForBTC`. -/
structure PBFBRun where
  cfg : ACCSConfig
  btcCreate : BTCCreateArgs
  fundedP2WSH : Payment
  loopRes : LoopRes PBFBSt
  pushedRefund : Option String
  outcome : PBFBOutcome
deriving DecidableEq, Repr

/-- Post-loop part of `proposeBTSForBTC`: on timeout push the refund hex and
throw, on success return. -/
def pbfbFinish (cfg : ACCSConfig) (env : PBFBEnv) (create : BTCCreateArgs)
    (p2wsh : Payment) : LoopRes PBFBSt → PBFBRun
  | .out st n ttw =>
    if st.success then
      { cfg := cfg, btcCreate := create, fundedP2WSH := p2wsh
        loopRes := .out st n ttw, pushedRefund := none
        outcome := .redeemed }
    else
      { cfg := cfg, btcCreate := create, fundedP2WSH := p2wsh
        loopRes := .out st n ttw, pushedRefund := some env.refundHex
        outcome := .refunded (env.pushTX env.refundHex) }
  | .thrown e =>
    { cfg := cfg, btcCreate := create, fundedP2WSH := p2wsh
      loopRes := .thrown e, pushedRefund := none
      outcome := .chainError e }
  | .fuelOut =>
    { cfg := cfg, btcCreate := create, fundedP2WSH := p2wsh
      loopRes := .fuelOut, pushedRefund := none
      outcome := .fuelExhausted }

/-- `ACCS.proposeBTSForBTC`: halve `timelockBTS`, fund the Bitcoin HTLC with
the full `timelockBTC` as sequence, poll the Bitshares redeem until it
succeeds or the Bitcoin chain reaches `fundingTxBlockHeight + timelockBTC`,
and on timeout push the pre-built refund hex. -/
def proposeBTSForBTC (cfg0 : ACCSConfig) (env : PBFBEnv) (fuel : ℕ) :
    PBFBRun :=
  let cfg := { cfg0 with timelockBTS := jsRoundDiv cfg0.timelockBTS 2 }
  let create : BTCCreateArgs :=
    { transactionID := cfg.bitcoinTxID, amount := cfg.amountSatoshi
      sequence := cfg.timelockBTC, hash := cfg.secret.hash }
  let p2wsh := getP2WSH cfg.networkName cfg.keyPairCompressedBTC
    cfg.counterpartyKeyPairCompressedBTC cfg.secret.hash cfg.timelockBTC
  let maxH := env.fundingHeight + cfg.timelockBTC
  pbfbFinish cfg env create p2wsh
    (pollLoop (pbfbCond maxH) (pbfbStep env) 0 fuel 0 0
      { success := false, height := 0 })

/-- Oracles for `proposeBTCForBTS`: the watcher of the counterparty's P2WSH
address and the final Bitcoin redeem broadcast. -/
structure PBCBEnv where
  getValue : ℕ → Except String (String × ℤ)
  finalRedeem : Except String Unit

/-- Guard of the `proposeBTCForBTS` polling loop:
`txID === null && timeToWait > 0`. -/
def pbcbCond (st : Option String) (ttw : ℤ) : Bool :=
  st.isNone && decide (0 < ttw)

/-- Body of the `proposeBTCForBTS` polling loop: query
`getValueFromLastTransaction`; a rejection is caught and swallowed. -/
def pbcbStep (env : PBCBEnv) (n : ℕ) (st : Option String) :
    Except String (Option String) :=
  .ok (match env.getValue n with
    | .ok r => some r.1
    | .error _ => st)

/-- Exit paths of `proposeBTCForBTS`. -/
inductive PBCBOutcome where
  | redeemed
  | noHTLCFound
  | chainError (e : String)
  | fuelExhausted
deriving DecidableEq, Repr

/-- Run record of `proposeBTCForBTS`. -/
structure PBCBRun where
  cfg : ACCSConfig
  btsCreate : BTSCreateArgs
  watchedP2WSH : Payment
  loopRes : LoopRes (Option String)
  txID : Option String
  btcRedeemAttempted : Bool
  outcome : PBCBOutcome
deriving DecidableEq, Repr

/-- Post-loop part of `proposeBTCForBTS`: throw if no transaction was found
(the Bitshares HTLC auto-expires; nothing is broadcast), otherwise redeem the
Bitcoin HTLC. -/
def pbcbFinish (cfg : ACCSConfig) (env : PBCBEnv) (bts : BTSCreateArgs)
    (p2wsh : Payment) : LoopRes (Option String) → PBCBRun
  | .out st n ttw =>
    match st with
    | none =>
      { cfg := cfg, btsCreate := bts, watchedP2WSH := p2wsh
        loopRes := .out none n ttw, txID := none
        btcRedeemAttempted := false, outcome := .noHTLCFound }
    | some tx =>
      match env.finalRedeem with
      | .ok _ =>
        { cfg := cfg, btsCreate := bts, watchedP2WSH := p2wsh
          loopRes := .out (some tx) n ttw, txID := some tx
          btcRedeemAttempted := true, outcome := .redeemed }
      | .error e =>
        { cfg := cfg, btsCreate := bts, watchedP2WSH := p2wsh
          loopRes := .out (some tx) n ttw, txID := some tx
          btcRedeemAttempted := true, outcome := .chainError e }
  | .thrown e =>
    { cfg := cfg, btsCreate := bts, watchedP2WSH := p2wsh
      loopRes := .thrown e, txID := none
      btcRedeemAttempted := false, outcome := .chainError e }
  | .fuelOut =>
    { cfg := cfg, btsCreate := bts, watchedP2WSH := p2wsh
      loopRes := .fuelOut, txID := none
      btcRedeemAttempted := false, outcome := .fuelExhausted }

/-- `ACCS.proposeBTCForBTS`: halve `timelockBTC`, create the Bitshares HTLC
with the full `timelockBTS`, then watch the counterparty's P2WSH (computed
with the halved `timelockBTC`) for `round(timelockBTS / checkAPIInterval)`
probes, one per `checkAPIInterval` seconds. -/
def proposeBTCForBTS (cfg0 : ACCSConfig) (env : PBCBEnv) (fuel : ℕ) :
    PBCBRun :=
  let cfg := { cfg0 with timelockBTC := jsRoundDiv cfg0.timelockBTC 2 }
  let bts : BTSCreateArgs :=
    { amount := cfg.amountBTSMini, asset := cfg.bitsharesAsset
      time := cfg.timelockBTS, hash := cfg.secret.hash }
  let p2wsh := getP2WSH cfg.networkName cfg.counterpartyKeyPairCompressedBTC
    cfg.keyPairCompressedBTC cfg.secret.hash cfg.timelockBTC
  let ttw0 : ℤ := jsRoundDiv cfg.timelockBTS cfg.checkAPIInterval
  pbcbFinish cfg env bts p2wsh
    (pollLoop pbcbCond (pbcbStep env) 1 fuel ttw0 0 none)

/-- Oracles for `takeBTSForBTC`.  `refundHex` and `fundingHeight` are
modelled from the spec as in `PBFBEnv`. -/
structure TBFBEnv where
  getID : ℕ → Except String String
  refundHex : String
  fundingHeight : ℤ
  lastBlock : ℕ → ℤ
  getPreimage : ℕ → Except String String
  pushTX : String → String
  finalRedeem : Except String Bool

/-- Guard of the first `takeBTSForBTC` loop: `!id && timeToWait > 0`
(JavaScript falsiness of the empty string). -/
def tbfb1Cond (st : String) (ttw : ℤ) : Bool :=
  decide (st = "") && decide (0 < ttw)

/-- Body of the first `takeBTSForBTC` loop: query `getID`; a rejection is
caught and swallowed. -/
def tbfb1Step (env : TBFBEnv) (n : ℕ) (st : String) : Except String String :=
  .ok (match env.getID n with
    | .ok s => s
    | .error _ => st)

/-- Loop state of the second `takeBTSForBTC` loop: the preimage extracted
from the P2WSH spend (if any) and the block height last observed. -/
structure TBFBSt where
  preimage : Option String
  height : ℤ
deriving DecidableEq, Repr

/-- Guard of the second `takeBTSForBTC` loop:
`preimageFromBlockchain === null && currentBlockHeight < maxBlockHeight`. -/
def tbfb2Cond (maxH : ℤ) (st : TBFBSt) (_ttw : ℤ) : Bool :=
  st.preimage.isNone && decide (st.height < maxH)

/-- Body of the second `takeBTSForBTC` loop: refresh the block height, then
call `getPreimageFromLastTransaction`.  This call has NO catch handler in
the source, so a rejection is thrown out of the loop. -/
def tbfb2Step (env : TBFBEnv) (n : ℕ) (_st : TBFBSt) : Except String TBFBSt :=
  match env.getPreimage n with
  | .ok p => .ok { preimage := some p, height := env.lastBlock n }
  | .error e => .error e

/-- Exit paths of `takeBTSForBTC`. -/
inductive TBFBOutcome where
  | completed
  | btsNotFound
  | chainError (e : String)
  | refundFailed (refundHex : String)
  | refunded (refundTxID : String)
  | btsRedeemFailed
  | fuelExhausted
deriving DecidableEq, Repr

/-- Run record of `takeBTSForBTC`. -/
structure TBFBRun where
  cfg : ACCSConfig
  loop1Res : LoopRes String
  btsID : String
  btcCreate : Option BTCCreateArgs
  fundedP2WSH : Option Payment
  loop2Res : Option (LoopRes TBFBSt)
  extractedPreimage : Option String
  pushedRefund : Option String
  outcome : TBFBOutcome
deriving DecidableEq, Repr

/-- Part of `takeBTSForBTC` after the second loop: on timeout push the refund
hex and throw (with a distinct error when the push itself fails); when a
preimage was extracted write it into the secret and redeem the Bitshares
HTLC. -/
def tbfbFinish2 (cfg : ACCSConfig) (env : TBFBEnv) (l1 : LoopRes String)
    (id : String) (create : BTCCreateArgs) (p2wsh : Payment) :
    LoopRes TBFBSt → TBFBRun
  | .out st n ttw =>
    match st.preimage with
    | none =>
      let refundTxID := env.pushTX env.refundHex
      if refundTxID = "" then
        { cfg := cfg, loop1Res := l1, btsID := id
          btcCreate := some create, fundedP2WSH := some p2wsh
          loop2Res := some (.out st n ttw), extractedPreimage := none
          pushedRefund := some env.refundHex
          outcome := .refundFailed env.refundHex }
      else
        { cfg := cfg, loop1Res := l1, btsID := id
          btcCreate := some create, fundedP2WSH := some p2wsh
          loop2Res := some (.out st n ttw), extractedPreimage := none
          pushedRefund := some env.refundHex
          outcome := .refunded refundTxID }
    | some p =>
      let cfg' := { cfg with secret := { cfg.secret with preimage := some p } }
      { cfg := cfg', loop1Res := l1, btsID := id
        btcCreate := some create, fundedP2WSH := some p2wsh
        loop2Res := some (.out st n ttw), extractedPreimage := some p
        pushedRefund := none
        outcome :=
          match env.finalRedeem with
          | .ok true => .completed
          | .ok false => .btsRedeemFailed
          | .error e => .chainError e }
  | .thrown e =>
    { cfg := cfg, loop1Res := l1, btsID := id
      btcCreate := some create, fundedP2WSH := some p2wsh
      loop2Res := some (.thrown e), extractedPreimage := none
      pushedRefund := none, outcome := .chainError e }
  | .fuelOut =>
    { cfg := cfg, loop1Res := l1, btsID := id
      btcCreate := some create, fundedP2WSH := some p2wsh
      loop2Res := some .fuelOut, extractedPreimage := none
      pushedRefund := none, outcome := .fuelExhausted }

/-- Part of `takeBTSForBTC` after the first loop: throw if no Bitshares HTLC
was found; otherwise fund the Bitcoin HTLC with the (already halved)
`timelockBTC` as sequence and run the preimage-extraction loop. -/
def tbfbFinish1 (cfg : ACCSConfig) (env : TBFBEnv) (fuel : ℕ) :
    LoopRes String → TBFBRun
  | .out id n ttw =>
    if id = "" then
      { cfg := cfg, loop1Res := .out id n ttw, btsID := id
        btcCreate := none, fundedP2WSH := none, loop2Res := none
        extractedPreimage := none, pushedRefund := none
        outcome := .btsNotFound }
    else
      let create : BTCCreateArgs :=
        { transactionID := cfg.bitcoinTxID, amount := cfg.amountSatoshi
          sequence := cfg.timelockBTC, hash := cfg.secret.hash }
      let p2wsh := getP2WSH cfg.networkName cfg.keyPairCompressedBTC
        cfg.counterpartyKeyPairCompressedBTC cfg.secret.hash cfg.timelockBTC
      let maxH := env.fundingHeight + cfg.timelockBTC
      tbfbFinish2 cfg env (.out id n ttw) id create p2wsh
        (pollLoop (tbfb2Cond maxH) (tbfb2Step env) 0 fuel 0 0
          { preimage := none, height := 0 })
  | .thrown e =>
    { cfg := cfg, loop1Res := .thrown e, btsID := ""
      btcCreate := none, fundedP2WSH := none, loop2Res := none
      extractedPreimage := none, pushedRefund := none
      outcome := .chainError e }
  | .fuelOut =>
    { cfg := cfg, loop1Res := .fuelOut, btsID := ""
      btcCreate := none, fundedP2WSH := none, loop2Res := none
      extractedPreimage := none, pushedRefund := none
      outcome := .fuelExhausted }

/-- `ACCS.takeBTSForBTC`: halve `timelockBTC`, look for the proposer's
Bitshares HTLC for 300 seconds, fund the Bitcoin HTLC with the halved
sequence, wait for its spend to reveal the preimage until the block horizon,
then redeem the Bitshares HTLC (or push the refund hex on timeout). -/
def takeBTSForBTC (cfg0 : ACCSConfig) (env : TBFBEnv) (fuel : ℕ) : TBFBRun :=
  let cfg := { cfg0 with timelockBTC := jsRoundDiv cfg0.timelockBTC 2 }
  tbfbFinish1 cfg env fuel
    (pollLoop tbfb1Cond (tbfb1Step env) cfg.checkAPIInterval fuel 300 0 "")

/-- Oracles for `takeBTCForBTS`.  `feeMax` is modelled from the spec:
`BitcoinHTLC.calculateFee().max` (section 4.5). -/
structure TBCBEnv where
  getValue : ℕ → Except String (String × ℤ)
  feeMax : ℤ
  getPreimageHTLC : ℕ → Except String String
  finalRedeem : Except String Unit

/-- Guard of the first `takeBTCForBTS` loop:
`txID === null && timeToWait > 0`. -/
def tbcb1Cond (st : Option (String × ℤ)) (ttw : ℤ) : Bool :=
  st.isNone && decide (0 < ttw)

/-- Body of the first `takeBTCForBTS` loop: query
`getValueFromLastTransaction` for txID and value; a rejection is caught and
swallowed. -/
def tbcb1Step (env : TBCBEnv) (n : ℕ) (st : Option (String × ℤ)) :
    Except String (Option (String × ℤ)) :=
  .ok (match env.getValue n with
    | .ok r => some r
    | .error _ => st)

/-- Guard of the second `takeBTCForBTS` loop:
`!preimage && timeToWait > 0`. -/
def tbcb2Cond (st : String) (ttw : ℤ) : Bool :=
  decide (st = "") && decide (0 < ttw)

/-- Body of the second `takeBTCForBTS` loop: query `getPreimageFromHTLC`;
a rejection is caught and swallowed. -/
def tbcb2Step (env : TBCBEnv) (n : ℕ) (st : String) : Except String String :=
  .ok (match env.getPreimageHTLC n with
    | .ok s => s
    | .error _ => st)

/-- Exit paths of `takeBTCForBTS`. -/
inductive TBCBOutcome where
  | completed
  | noHTLCFound
  | insufficientAmount
  | notRedeemedInTime
  | chainError (e : String)
  | fuelExhausted
deriving DecidableEq, Repr

/-- Run record of `takeBTCForBTS`. -/
structure TBCBRun where
  cfg : ACCSConfig
  watchedP2WSH : Payment
  loop1Res : LoopRes (Option (String × ℤ))
  found : Option (String × ℤ)
  loop1TTW : ℤ
  btsCreate : Option BTSCreateArgs
  loop2Res : Option (LoopRes String)
  extractedPreimage : Option String
  btcRedeemAttempted : Bool
  outcome : TBCBOutcome
deriving DecidableEq, Repr

/-- Part of `takeBTCForBTS` after the second loop: throw if the counterparty
never redeemed (the Bitshares HTLC auto-expires); otherwise write the
revealed preimage into the secret and redeem the Bitcoin HTLC. -/
def tbcbFinish2 (cfg : ACCSConfig) (env : TBCBEnv) (p2wsh : Payment)
    (l1 : LoopRes (Option (String × ℤ))) (found : Option (String × ℤ))
    (ttw1 : ℤ) (bts : BTSCreateArgs) : LoopRes String → TBCBRun
  | .out pre n ttw =>
    if pre = "" then
      { cfg := cfg, watchedP2WSH := p2wsh, loop1Res := l1, found := found
        loop1TTW := ttw1, btsCreate := some bts
        loop2Res := some (.out pre n ttw), extractedPreimage := none
        btcRedeemAttempted := false, outcome := .notRedeemedInTime }
    else
      let cfg' :=
        { cfg with secret := { cfg.secret with preimage := some pre } }
      { cfg := cfg', watchedP2WSH := p2wsh, loop1Res := l1, found := found
        loop1TTW := ttw1, btsCreate := some bts
        loop2Res := some (.out pre n ttw), extractedPreimage := some pre
        btcRedeemAttempted := true
        outcome :=
          match env.finalRedeem with
          | .ok _ => .completed
          | .error e => .chainError e }
  | .thrown e =>
    { cfg := cfg, watchedP2WSH := p2wsh, loop1Res := l1, found := found
      loop1TTW := ttw1, btsCreate := some bts, loop2Res := some (.thrown e)
      extractedPreimage := none, btcRedeemAttempted := false
      outcome := .chainError e }
  | .fuelOut =>
    { cfg := cfg, watchedP2WSH := p2wsh, loop1Res := l1, found := found
      loop1TTW := ttw1, btsCreate := some bts, loop2Res := some .fuelOut
      extractedPreimage := none, btcRedeemAttempted := false
      outcome := .fuelExhausted }

/-- Part of `takeBTCForBTS` after the first loop.  The source's guard is
`if (timeToWait === 0) throw`; then the observed value (JavaScript-coerced
to 0 when null) is checked against `amountSatoshi - fees.max` BEFORE the
Bitshares HTLC is created. -/
def tbcbFinish1 (cfg : ACCSConfig) (env : TBCBEnv) (p2wsh : Payment)
    (fuel : ℕ) : LoopRes (Option (String × ℤ)) → TBCBRun
  | .out st n ttw =>
    if ttw = 0 then
      { cfg := cfg, watchedP2WSH := p2wsh, loop1Res := .out st n ttw
        found := st, loop1TTW := ttw, btsCreate := none, loop2Res := none
        extractedPreimage := none, btcRedeemAttempted := false
        outcome := .noHTLCFound }
    else
      let v : ℤ := (st.map Prod.snd).getD 0
      if v < cfg.amountSatoshi - env.feeMax then
        { cfg := cfg, watchedP2WSH := p2wsh, loop1Res := .out st n ttw
          found := st, loop1TTW := ttw, btsCreate := none, loop2Res := none
          extractedPreimage := none, btcRedeemAttempted := false
          outcome := .insufficientAmount }
      else
        let bts : BTSCreateArgs :=
          { amount := cfg.amountBTSMini, asset := cfg.bitsharesAsset
            time := cfg.timelockBTS, hash := cfg.secret.hash }
        tbcbFinish2 cfg env p2wsh (.out st n ttw) st ttw bts
          (pollLoop tbcb2Cond (tbcb2Step env) 1 fuel cfg.timelockBTS 0 "")
  | .thrown e =>
    { cfg := cfg, watchedP2WSH := p2wsh, loop1Res := .thrown e, found := none
      loop1TTW := 0, btsCreate := none, loop2Res := none
      extractedPreimage := none, btcRedeemAttempted := false
      outcome := .chainError e }
  | .fuelOut =>
    { cfg := cfg, watchedP2WSH := p2wsh, loop1Res := .fuelOut, found := none
      loop1TTW := 0, btsCreate := none, loop2Res := none
      extractedPreimage := none, btcRedeemAttempted := false
      outcome := .fuelExhausted }

/-- `ACCS.takeBTCForBTS`: halve `timelockBTS`, look for the proposer's
Bitcoin HTLC at the P2WSH computed with the UNhalved `timelockBTC` for 1800
seconds, check its value against `amountSatoshi - fees.max`, create the
Bitshares HTLC with the halved `timelockBTS`, wait `timelockBTS` one-second
probes for the counterparty's redeem, then redeem the Bitcoin HTLC. -/
def takeBTCForBTS (cfg0 : ACCSConfig) (env : TBCBEnv) (fuel : ℕ) : TBCBRun :=
  let cfg := { cfg0 with timelockBTS := jsRoundDiv cfg0.timelockBTS 2 }
  let p2wsh := getP2WSH cfg.networkName cfg.counterpartyKeyPairCompressedBTC
    cfg.keyPairCompressedBTC cfg.secret.hash cfg.timelockBTC
  tbcbFinish1 cfg env p2wsh fuel
    (pollLoop tbcb1Cond (tbcb1Step env) cfg.checkAPIInterval fuel 1800 0 none)

/-- All oracles needed by `run`. -/
structure RunEnv where
  parse : ParseEnv
  pbfb : PBFBEnv
  pbcb : PBCBEnv
  tbfb : TBFBEnv
  tbcb : TBCBEnv

/-- Result of `run`: which flow (if any) was dispatched, with its run
record. -/
inductive RunResult where
  | swappedPBFB (r : PBFBRun)
  | swappedPBCB (r : PBCBRun)
  | swappedTBFB (r : TBFBRun)
  | swappedTBCB (r : TBCBRun)
  | noSwap (cfg : ACCSConfig)
deriving DecidableEq, Repr

/-- True when `run` dispatched no flow. -/
def RunResult.isNoSwap : RunResult → Bool
  | .noSwap _ => true
  | _ => false

/-- `ACCS.run`: parse the fields, then dispatch on `(type, mode)`; a pair
matching none of the four combinations runs no flow and raises no error. -/
def run (fields : ACCSFields) (env : RunEnv) (fuel : ℕ) :
    RunResult × List ParseAction :=
  let parsed := parseUserInput fields env.parse
  let cfg := parsed.1
  (if cfg.type = "BTC" && cfg.mode = "proposer" then
    .swappedPBFB (proposeBTSForBTC cfg env.pbfb fuel)
  else if cfg.type = "BTS" && cfg.mode = "proposer" then
    .swappedPBCB (proposeBTCForBTS cfg env.pbcb fuel)
  else if cfg.type = "BTC" && cfg.mode = "accepter" then
    .swappedTBFB (takeBTSForBTC cfg env.tbfb fuel)
  else if cfg.type = "BTS" && cfg.mode = "accepter" then
    .swappedTBCB (takeBTCForBTS cfg env.tbcb fuel)
  else .noSwap cfg, parsed.2)

/-! ## Projection lemmas for the flow post-processing helpers -/

theorem pbfbFinish_cfg (cfg : ACCSConfig) (env : PBFBEnv) (c : BTCCreateArgs)
    (p : Payment) (l : LoopRes PBFBSt) : (pbfbFinish cfg env c p l).cfg = cfg := by
  cases l with
  | out st n ttw => simp only [pbfbFinish]; split <;> rfl
  | thrown e => rfl
  | fuelOut => rfl

theorem pbfbFinish_btcCreate (cfg : ACCSConfig) (env : PBFBEnv)
    (c : BTCCreateArgs) (p : Payment) (l : LoopRes PBFBSt) :
    (pbfbFinish cfg env c p l).btcCreate = c := by
  cases l with
  | out st n ttw => simp only [pbfbFinish]; split <;> rfl
  | thrown e => rfl
  | fuelOut => rfl

theorem pbfbFinish_fundedP2WSH (cfg : ACCSConfig) (env : PBFBEnv)
    (c : BTCCreateArgs) (p : Payment) (l : LoopRes PBFBSt) :
    (pbfbFinish cfg env c p l).fundedP2WSH = p := by
  cases l with
  | out st n ttw => simp only [pbfbFinish]; split <;> rfl
  | thrown e => rfl
  | fuelOut => rfl

theorem pbfbFinish_loopRes (cfg : ACCSConfig) (env : PBFBEnv)
    (c : BTCCreateArgs) (p : Payment) (l : LoopRes PBFBSt) :
    (pbfbFinish cfg env c p l).loopRes = l := by
  cases l with
  | out st n ttw => simp only [pbfbFinish]; split <;> rfl
  | thrown e => rfl
  | fuelOut => rfl

theorem pbcbFinish_cfg (cfg : ACCSConfig) (env : PBCBEnv) (b : BTSCreateArgs)
    (p : Payment) (l : LoopRes (Option String)) :
    (pbcbFinish cfg env b p l).cfg = cfg := by
  cases l with
  | out st n ttw =>
    cases st with
    | none => rfl
    | some tx => simp only [pbcbFinish]; split <;> rfl
  | thrown e => rfl
  | fuelOut => rfl

theorem pbcbFinish_btsCreate (cfg : ACCSConfig) (env : PBCBEnv)
    (b : BTSCreateArgs) (p : Payment) (l : LoopRes (Option String)) :
    (pbcbFinish cfg env b p l).btsCreate = b := by
  cases l with
  | out st n ttw =>
    cases st with
    | none => rfl
    | some tx => simp only [pbcbFinish]; split <;> rfl
  | thrown e => rfl
  | fuelOut => rfl

theorem pbcbFinish_watchedP2WSH (cfg : ACCSConfig) (env : PBCBEnv)
    (b : BTSCreateArgs) (p : Payment) (l : LoopRes (Option String)) :
    (pbcbFinish cfg env b p l).watchedP2WSH = p := by
  cases l with
  | out st n ttw =>
    cases st with
    | none => rfl
    | some tx => simp only [pbcbFinish]; split <;> rfl
  | thrown e => rfl
  | fuelOut => rfl

theorem pbcbFinish_loopRes (cfg : ACCSConfig) (env : PBCBEnv)
    (b : BTSCreateArgs) (p : Payment) (l : LoopRes (Option String)) :
    (pbcbFinish cfg env b p l).loopRes = l := by
  cases l with
  | out st n ttw =>
    cases st with
    | none => rfl
    | some tx => simp only [pbcbFinish]; split <;> rfl
  | thrown e => rfl
  | fuelOut => rfl

theorem tbfbFinish2_btcCreate (cfg : ACCSConfig) (env : TBFBEnv)
    (l1 : LoopRes String) (id : String) (c : BTCCreateArgs) (p : Payment)
    (l : LoopRes TBFBSt) : (tbfbFinish2 cfg env l1 id c p l).btcCreate = some c := by
  cases l with
  | out st n ttw =>
    cases hp : st.preimage with
    | none => simp only [tbfbFinish2, hp]; split <;> rfl
    | some q => simp only [tbfbFinish2, hp]
  | thrown e => rfl
  | fuelOut => rfl

theorem tbfbFinish2_fundedP2WSH (cfg : ACCSConfig) (env : TBFBEnv)
    (l1 : LoopRes String) (id : String) (c : BTCCreateArgs) (p : Payment)
    (l : LoopRes TBFBSt) :
    (tbfbFinish2 cfg env l1 id c p l).fundedP2WSH = some p := by
  cases l with
  | out st n ttw =>
    cases hp : st.preimage with
    | none => simp only [tbfbFinish2, hp]; split <;> rfl
    | some q => simp only [tbfbFinish2, hp]
  | thrown e => rfl
  | fuelOut => rfl

theorem tbfbFinish2_loop2Res (cfg : ACCSConfig) (env : TBFBEnv)
    (l1 : LoopRes String) (id : String) (c : BTCCreateArgs) (p : Payment)
    (l : LoopRes TBFBSt) : (tbfbFinish2 cfg env l1 id c p l).loop2Res = some l := by
  cases l with
  | out st n ttw =>
    cases hp : st.preimage with
    | none => simp only [tbfbFinish2, hp]; split <;> rfl
    | some q => simp only [tbfbFinish2, hp]
  | thrown e => rfl
  | fuelOut => rfl

theorem tbfbFinish2_cfg_secret (cfg : ACCSConfig) (env : TBFBEnv)
    (l1 : LoopRes String) (id : String) (c : BTCCreateArgs) (p : Payment)
    (l : LoopRes TBFBSt) :
    (tbfbFinish2 cfg env l1 id c p l).cfg.secret.hash = cfg.secret.hash
    ∧ (tbfbFinish2 cfg env l1 id c p l).cfg.secret.preimage =
      (match (tbfbFinish2 cfg env l1 id c p l).extractedPreimage with
       | some q => some q
       | none => cfg.secret.preimage)
    ∧ (tbfbFinish2 cfg env l1 id c p l).cfg.timelockBTC = cfg.timelockBTC
    ∧ (tbfbFinish2 cfg env l1 id c p l).cfg.timelockBTS = cfg.timelockBTS := by
  cases l with
  | out st n ttw =>
    cases hp : st.preimage with
    | none =>
      simp only [tbfbFinish2, hp]
      split <;> simp
    | some q => simp [tbfbFinish2, hp]
  | thrown e => simp [tbfbFinish2]
  | fuelOut => simp [tbfbFinish2]

theorem tbfbFinish1_cfg_secret (cfg : ACCSConfig) (env : TBFBEnv) (fuel : ℕ)
    (l : LoopRes String) :
    (tbfbFinish1 cfg env fuel l).cfg.secret.hash = cfg.secret.hash
    ∧ (tbfbFinish1 cfg env fuel l).cfg.secret.preimage =
      (match (tbfbFinish1 cfg env fuel l).extractedPreimage with
       | some q => some q
       | none => cfg.secret.preimage)
    ∧ (tbfbFinish1 cfg env fuel l).cfg.timelockBTC = cfg.timelockBTC
    ∧ (tbfbFinish1 cfg env fuel l).cfg.timelockBTS = cfg.timelockBTS := by
  cases l with
  | out id n ttw =>
    simp only [tbfbFinish1]
    split
    · exact ⟨rfl, rfl, rfl, rfl⟩
    · exact tbfbFinish2_cfg_secret _ _ _ _ _ _ _
  | thrown e => exact ⟨rfl, rfl, rfl, rfl⟩
  | fuelOut => exact ⟨rfl, rfl, rfl, rfl⟩

theorem tbfbFinish1_btcCreate (cfg : ACCSConfig) (env : TBFBEnv) (fuel : ℕ)
    (l : LoopRes String) :
    ∀ c ∈ (tbfbFinish1 cfg env fuel l).btcCreate,
      c = { transactionID := cfg.bitcoinTxID, amount := cfg.amountSatoshi
            sequence := cfg.timelockBTC, hash := cfg.secret.hash } := by
  cases l with
  | out id n ttw =>
    simp only [tbfbFinish1]
    split
    · intro c hc; simp at hc
    · intro c hc
      rw [tbfbFinish2_btcCreate] at hc
      simp only [Option.mem_def, Option.some.injEq] at hc
      exact hc.symm
  | thrown e => intro c hc; simp [tbfbFinish1] at hc
  | fuelOut => intro c hc; simp [tbfbFinish1] at hc

theorem tbfbFinish1_fundedP2WSH (cfg : ACCSConfig) (env : TBFBEnv) (fuel : ℕ)
    (l : LoopRes String) :
    ∀ pay ∈ (tbfbFinish1 cfg env fuel l).fundedP2WSH,
      pay = getP2WSH cfg.networkName cfg.keyPairCompressedBTC
        cfg.counterpartyKeyPairCompressedBTC cfg.secret.hash cfg.timelockBTC := by
  cases l with
  | out id n ttw =>
    simp only [tbfbFinish1]
    split
    · intro pay hp; simp at hp
    · intro pay hp
      rw [tbfbFinish2_fundedP2WSH] at hp
      simp only [Option.mem_def, Option.some.injEq] at hp
      exact hp.symm
  | thrown e => intro pay hp; simp [tbfbFinish1] at hp
  | fuelOut => intro pay hp; simp [tbfbFinish1] at hp

theorem tbcbFinish2_loop1Res (cfg : ACCSConfig) (env : TBCBEnv) (p : Payment)
    (l1 : LoopRes (Option (String × ℤ))) (found : Option (String × ℤ))
    (ttw1 : ℤ) (b : BTSCreateArgs) (l : LoopRes String) :
    (tbcbFinish2 cfg env p l1 found ttw1 b l).loop1Res = l1 := by
  cases l with
  | out pre n ttw => simp only [tbcbFinish2]; split <;> rfl
  | thrown e => rfl
  | fuelOut => rfl

theorem tbcbFinish2_btsCreate (cfg : ACCSConfig) (env : TBCBEnv) (p : Payment)
    (l1 : LoopRes (Option (String × ℤ))) (found : Option (String × ℤ))
    (ttw1 : ℤ) (b : BTSCreateArgs) (l : LoopRes String) :
    (tbcbFinish2 cfg env p l1 found ttw1 b l).btsCreate = some b := by
  cases l with
  | out pre n ttw => simp only [tbcbFinish2]; split <;> rfl
  | thrown e => rfl
  | fuelOut => rfl

theorem tbcbFinish2_watchedP2WSH (cfg : ACCSConfig) (env : TBCBEnv)
    (p : Payment) (l1 : LoopRes (Option (String × ℤ)))
    (found : Option (String × ℤ)) (ttw1 : ℤ) (b : BTSCreateArgs)
    (l : LoopRes String) :
    (tbcbFinish2 cfg env p l1 found ttw1 b l).watchedP2WSH = p := by
  cases l with
  | out pre n ttw => simp only [tbcbFinish2]; split <;> rfl
  | thrown e => rfl
  | fuelOut => rfl

theorem tbcbFinish2_loop2Res (cfg : ACCSConfig) (env : TBCBEnv) (p : Payment)
    (l1 : LoopRes (Option (String × ℤ))) (found : Option (String × ℤ))
    (ttw1 : ℤ) (b : BTSCreateArgs) (l : LoopRes String) :
    (tbcbFinish2 cfg env p l1 found ttw1 b l).loop2Res = some l := by
  cases l with
  | out pre n ttw => simp only [tbcbFinish2]; split <;> rfl
  | thrown e => rfl
  | fuelOut => rfl

theorem tbcbFinish2_cfg_secret (cfg : ACCSConfig) (env : TBCBEnv) (p : Payment)
    (l1 : LoopRes (Option (String × ℤ))) (found : Option (String × ℤ))
    (ttw1 : ℤ) (b : BTSCreateArgs) (l : LoopRes String) :
    (tbcbFinish2 cfg env p l1 found ttw1 b l).cfg.secret.hash = cfg.secret.hash
    ∧ (tbcbFinish2 cfg env p l1 found ttw1 b l).cfg.secret.preimage =
      (match (tbcbFinish2 cfg env p l1 found ttw1 b l).extractedPreimage with
       | some q => some q
       | none => cfg.secret.preimage)
    ∧ (tbcbFinish2 cfg env p l1 found ttw1 b l).cfg.timelockBTC = cfg.timelockBTC
    ∧ (tbcbFinish2 cfg env p l1 found ttw1 b l).cfg.timelockBTS = cfg.timelockBTS := by
  cases l with
  | out pre n ttw =>
    simp only [tbcbFinish2]
    split
    · exact ⟨rfl, rfl, rfl, rfl⟩
    · exact ⟨rfl, rfl, rfl, rfl⟩
  | thrown e => exact ⟨rfl, rfl, rfl, rfl⟩
  | fuelOut => exact ⟨rfl, rfl, rfl, rfl⟩

theorem tbcbFinish1_loop1Res (cfg : ACCSConfig) (env : TBCBEnv) (p : Payment)
    (fuel : ℕ) (l : LoopRes (Option (String × ℤ))) :
    (tbcbFinish1 cfg env p fuel l).loop1Res = l := by
  cases l with
  | out st n ttw =>
    simp only [tbcbFinish1]
    split
    · rfl
    · split
      · rfl
      · exact tbcbFinish2_loop1Res _ _ _ _ _ _ _ _
  | thrown e => rfl
  | fuelOut => rfl

theorem tbcbFinish1_watchedP2WSH (cfg : ACCSConfig) (env : TBCBEnv)
    (p : Payment) (fuel : ℕ) (l : LoopRes (Option (String × ℤ))) :
    (tbcbFinish1 cfg env p fuel l).watchedP2WSH = p := by
  cases l with
  | out st n ttw =>
    simp only [tbcbFinish1]
    split
    · rfl
    · split
      · rfl
      · exact tbcbFinish2_watchedP2WSH _ _ _ _ _ _ _ _
  | thrown e => rfl
  | fuelOut => rfl

theorem tbcbFinish1_cfg_secret (cfg : ACCSConfig) (env : TBCBEnv) (p : Payment)
    (fuel : ℕ) (l : LoopRes (Option (String × ℤ))) :
    (tbcbFinish1 cfg env p fuel l).cfg.secret.hash = cfg.secret.hash
    ∧ (tbcbFinish1 cfg env p fuel l).cfg.secret.preimage =
      (match (tbcbFinish1 cfg env p fuel l).extractedPreimage with
       | some q => some q
       | none => cfg.secret.preimage)
    ∧ (tbcbFinish1 cfg env p fuel l).cfg.timelockBTC = cfg.timelockBTC
    ∧ (tbcbFinish1 cfg env p fuel l).cfg.timelockBTS = cfg.timelockBTS := by
  cases l with
  | out st n ttw =>
    simp only [tbcbFinish1]
    split
    · exact ⟨rfl, rfl, rfl, rfl⟩
    · split
      · exact ⟨rfl, rfl, rfl, rfl⟩
      · exact tbcbFinish2_cfg_secret _ _ _ _ _ _ _ _
  | thrown e => exact ⟨rfl, rfl, rfl, rfl⟩
  | fuelOut => exact ⟨rfl, rfl, rfl, rfl⟩

/-! ## Flow-level projection lemmas -/

theorem proposeBTSForBTC_cfg (cfg : ACCSConfig) (env : PBFBEnv) (fuel : ℕ) :
    (proposeBTSForBTC cfg env fuel).cfg =
      { cfg with timelockBTS := jsRoundDiv cfg.timelockBTS 2 } :=
  pbfbFinish_cfg _ _ _ _ _

theorem proposeBTSForBTC_btcCreate (cfg : ACCSConfig) (env : PBFBEnv)
    (fuel : ℕ) :
    (proposeBTSForBTC cfg env fuel).btcCreate =
      { transactionID := cfg.bitcoinTxID, amount := cfg.amountSatoshi
        sequence := cfg.timelockBTC, hash := cfg.secret.hash } :=
  pbfbFinish_btcCreate _ _ _ _ _

theorem proposeBTSForBTC_fundedP2WSH (cfg : ACCSConfig) (env : PBFBEnv)
    (fuel : ℕ) :
    (proposeBTSForBTC cfg env fuel).fundedP2WSH =
      getP2WSH cfg.networkName cfg.keyPairCompressedBTC
        cfg.counterpartyKeyPairCompressedBTC cfg.secret.hash cfg.timelockBTC :=
  pbfbFinish_fundedP2WSH _ _ _ _ _

theorem proposeBTSForBTC_loopRes (cfg : ACCSConfig) (env : PBFBEnv)
    (fuel : ℕ) :
    (proposeBTSForBTC cfg env fuel).loopRes =
      pollLoop (pbfbCond (env.fundingHeight + cfg.timelockBTC)) (pbfbStep env)
        0 fuel 0 0 { success := false, height := 0 } :=
  pbfbFinish_loopRes _ _ _ _ _

theorem proposeBTCForBTS_cfg (cfg : ACCSConfig) (env : PBCBEnv) (fuel : ℕ) :
    (proposeBTCForBTS cfg env fuel).cfg =
      { cfg with timelockBTC := jsRoundDiv cfg.timelockBTC 2 } :=
  pbcbFinish_cfg _ _ _ _ _

theorem proposeBTCForBTS_btsCreate (cfg : ACCSConfig) (env : PBCBEnv)
    (fuel : ℕ) :
    (proposeBTCForBTS cfg env fuel).btsCreate =
      { amount := cfg.amountBTSMini, asset := cfg.bitsharesAsset
        time := cfg.timelockBTS, hash := cfg.secret.hash } :=
  pbcbFinish_btsCreate _ _ _ _ _

theorem proposeBTCForBTS_watchedP2WSH (cfg : ACCSConfig) (env : PBCBEnv)
    (fuel : ℕ) :
    (proposeBTCForBTS cfg env fuel).watchedP2WSH =
      getP2WSH cfg.networkName cfg.counterpartyKeyPairCompressedBTC
        cfg.keyPairCompressedBTC cfg.secret.hash
        (jsRoundDiv cfg.timelockBTC 2) :=
  pbcbFinish_watchedP2WSH _ _ _ _ _

theorem proposeBTCForBTS_loopRes (cfg : ACCSConfig) (env : PBCBEnv)
    (fuel : ℕ) :
    (proposeBTCForBTS cfg env fuel).loopRes =
      pollLoop pbcbCond (pbcbStep env) 1 fuel
        (jsRoundDiv cfg.timelockBTS cfg.checkAPIInterval) 0 none :=
  pbcbFinish_loopRes _ _ _ _ _

theorem takeBTSForBTC_cfg_secret (cfg : ACCSConfig) (env : TBFBEnv)
    (fuel : ℕ) :
    (takeBTSForBTC cfg env fuel).cfg.secret.hash = cfg.secret.hash
    ∧ (takeBTSForBTC cfg env fuel).cfg.secret.preimage =
      (match (takeBTSForBTC cfg env fuel).extractedPreimage with
       | some q => some q
       | none => cfg.secret.preimage)
    ∧ (takeBTSForBTC cfg env fuel).cfg.timelockBTC =
        jsRoundDiv cfg.timelockBTC 2
    ∧ (takeBTSForBTC cfg env fuel).cfg.timelockBTS = cfg.timelockBTS :=
  tbfbFinish1_cfg_secret _ _ _ _

theorem takeBTSForBTC_btcCreate (cfg : ACCSConfig) (env : TBFBEnv)
    (fuel : ℕ) :
    ∀ c ∈ (takeBTSForBTC cfg env fuel).btcCreate,
      c = { transactionID := cfg.bitcoinTxID, amount := cfg.amountSatoshi
            sequence := jsRoundDiv cfg.timelockBTC 2
            hash := cfg.secret.hash } :=
  tbfbFinish1_btcCreate _ _ _ _

theorem takeBTSForBTC_fundedP2WSH (cfg : ACCSConfig) (env : TBFBEnv)
    (fuel : ℕ) :
    ∀ pay ∈ (takeBTSForBTC cfg env fuel).fundedP2WSH,
      pay = getP2WSH cfg.networkName cfg.keyPairCompressedBTC
        cfg.counterpartyKeyPairCompressedBTC cfg.secret.hash
        (jsRoundDiv cfg.timelockBTC 2) :=
  tbfbFinish1_fundedP2WSH _ _ _ _

theorem takeBTCForBTS_cfg_secret (cfg : ACCSConfig) (env : TBCBEnv)
    (fuel : ℕ) :
    (takeBTCForBTS cfg env fuel).cfg.secret.hash = cfg.secret.hash
    ∧ (takeBTCForBTS cfg env fuel).cfg.secret.preimage =
      (match (takeBTCForBTS cfg env fuel).extractedPreimage with
       | some q => some q
       | none => cfg.secret.preimage)
    ∧ (takeBTCForBTS cfg env fuel).cfg.timelockBTC = cfg.timelockBTC
    ∧ (takeBTCForBTS cfg env fuel).cfg.timelockBTS =
        jsRoundDiv cfg.timelockBTS 2 :=
  tbcbFinish1_cfg_secret _ _ _ _ _

theorem takeBTCForBTS_watchedP2WSH (cfg : ACCSConfig) (env : TBCBEnv)
    (fuel : ℕ) :
    (takeBTCForBTS cfg env fuel).watchedP2WSH =
      getP2WSH cfg.networkName cfg.counterpartyKeyPairCompressedBTC
        cfg.keyPairCompressedBTC cfg.secret.hash cfg.timelockBTC :=
  tbcbFinish1_watchedP2WSH _ _ _ _ _

theorem takeBTCForBTS_loop1Res (cfg : ACCSConfig) (env : TBCBEnv) (fuel : ℕ) :
    (takeBTCForBTS cfg env fuel).loop1Res =
      pollLoop tbcb1Cond (tbcb1Step env) cfg.checkAPIInterval fuel 1800 0
        none :=
  tbcbFinish1_loop1Res _ _ _ _ _

/-! ## Concrete fixtures used by witnesses and counterexamples -/

/-- A sample secret. -/
def secretW : Secret := { preimage := some "p0", hash := "h0" }

/-- A sample parsed config (testnet, 6-block Bitcoin timelock, 3600-second
Bitshares timelock, 4-second API interval as set by `parseUserInput`). -/
def cfgW : ACCSConfig :=
  { mode := "proposer", type := "BTC", priority := 1
    bitsharesAccountID := "1.2.20", bitsharesPrivateKey := "wifBTS"
    counterpartyBitsharesAccountID := "1.2.21"
    amountBTSMini := 5000000, amountSatoshi := 10000
    keyPairCompressedBTC := "02aa", counterpartyKeyPairCompressedBTC := "03bb"
    timelockBTC := 6, timelockBTS := 3600
    secret := secretW, bitcoinTxID := "beef"
    network := "testnet", networkName := "testnet"
    bitsharesAsset := "TEST", bitsharesEndpoint := "wss://testnet.dex.trading/"
    checkAPIInterval := 4 }

/-- `proposeBTSForBTC` oracle where the Bitshares redeem succeeds at once. -/
def pbfbEnvOkW : PBFBEnv :=
  { refundHex := "dead", fundingHeight := 100
    redeemResult := fun _ => .ok true, lastBlock := fun _ => 300
    pushTX := fun _ => "rtx" }

/-- `proposeBTSForBTC` oracle where the redeem keeps returning false and the
chain immediately passes the block horizon. -/
def pbfbEnvFailW : PBFBEnv :=
  { refundHex := "dead", fundingHeight := 100
    redeemResult := fun _ => .ok false, lastBlock := fun _ => 300
    pushTX := fun _ => "rtx" }

/-- `proposeBTCForBTS` oracle where the Bitcoin HTLC is found at once. -/
def pbcbEnvW : PBCBEnv :=
  { getValue := fun _ => .ok ("ftx", 9000), finalRedeem := .ok () }

/-- `takeBTSForBTC` oracle for a completed swap: HTLC found, Bitcoin HTLC
spent revealing preimage "pp", Bitshares redeem succeeds. -/
def tbfbEnvOkW : TBFBEnv :=
  { getID := fun _ => .ok "1.16.5", refundHex := "dead", fundingHeight := 100
    lastBlock := fun _ => 300, getPreimage := fun _ => .ok "pp"
    pushTX := fun _ => "rtx", finalRedeem := .ok true }

/-- `takeBTSForBTC` oracle whose preimage loop exits without a preimage
(the block horizon is already passed), forcing the refund path. -/
def tbfbEnvRefundW : TBFBEnv := { tbfbEnvOkW with fundingHeight := -10 }

/-- `takeBTCForBTS` oracle for a completed swap (found value 9600 with
`feeMax = 500` against `amountSatoshi = 10000`). -/
def tbcbEnvW : TBCBEnv :=
  { getValue := fun _ => .ok ("ftx", 9600), feeMax := 500
    getPreimageHTLC := fun _ => .ok "pp", finalRedeem := .ok () }

/-- `takeBTCForBTS` oracle observing a funding value of exactly
`amountSatoshi - feeMax - 1`. -/
def tbcbEnvLowW : TBCBEnv :=
  { tbcbEnvW with getValue := fun _ => .ok ("ftx", 9499) }

/-! ## C1: asymmetric timelock halving -/

/-- C1: every flow halves exactly the timelock of the leg whose party acts
second before any HTLC is created: `proposeBTSForBTC` and `takeBTCForBTS`
set `timelockBTS` to `round(timelockBTS / 2)` leaving `timelockBTC`
untouched, while `proposeBTCForBTS` and `takeBTSForBTC` set `timelockBTC` to
`round(timelockBTC / 2)` leaving `timelockBTS` untouched; the Bitcoin HTLC
funded by `proposeBTSForBTC` uses the full `timelockBTC` as its sequence and
the one funded by `takeBTSForBTC` uses the halved `timelockBTC`. -/
theorem timelock_halving_C1 (cfg : ACCSConfig) (envP : PBFBEnv)
    (envQ : PBCBEnv) (envT : TBFBEnv) (envU : TBCBEnv) (fuel : ℕ) :
    ((proposeBTSForBTC cfg envP fuel).cfg.timelockBTS
        = jsRoundDiv cfg.timelockBTS 2
      ∧ (proposeBTSForBTC cfg envP fuel).cfg.timelockBTC = cfg.timelockBTC
      ∧ (proposeBTSForBTC cfg envP fuel).btcCreate.sequence = cfg.timelockBTC)
    ∧ ((takeBTCForBTS cfg envU fuel).cfg.timelockBTS
        = jsRoundDiv cfg.timelockBTS 2
      ∧ (takeBTCForBTS cfg envU fuel).cfg.timelockBTC = cfg.timelockBTC)
    ∧ ((proposeBTCForBTS cfg envQ fuel).cfg.timelockBTC
        = jsRoundDiv cfg.timelockBTC 2
      ∧ (proposeBTCForBTS cfg envQ fuel).cfg.timelockBTS = cfg.timelockBTS)
    ∧ ((takeBTSForBTC cfg envT fuel).cfg.timelockBTC
        = jsRoundDiv cfg.timelockBTC 2
      ∧ (takeBTSForBTC cfg envT fuel).cfg.timelockBTS = cfg.timelockBTS
      ∧ ∀ c ∈ (takeBTSForBTC cfg envT fuel).btcCreate,
          c.sequence = jsRoundDiv cfg.timelockBTC 2) := by
  refine ⟨⟨?_, ?_, ?_⟩, ⟨?_, ?_⟩, ⟨?_, ?_⟩, ⟨?_, ?_, ?_⟩⟩
  · rw [proposeBTSForBTC_cfg]
  · rw [proposeBTSForBTC_cfg]
  · rw [proposeBTSForBTC_btcCreate]
  · exact (takeBTCForBTS_cfg_secret cfg envU fuel).2.2.2
  · exact (takeBTCForBTS_cfg_secret cfg envU fuel).2.2.1
  · rw [proposeBTCForBTS_cfg]
  · rw [proposeBTCForBTS_cfg]
  · exact (takeBTSForBTC_cfg_secret cfg envT fuel).2.2.1
  · exact (takeBTSForBTC_cfg_secret cfg envT fuel).2.2.2
  · intro c hc
    rw [takeBTSForBTC_btcCreate cfg envT fuel c hc]

/-- Witness for C1 at a concrete config (timelocks 6 blocks / 3600 s):
`proposeBTSForBTC` halves `timelockBTS` to 1800 and funds with sequence 6,
`takeBTCForBTS` halves `timelockBTS` to 1800, `proposeBTCForBTS` halves
`timelockBTC` to 3, and `takeBTSForBTC` funds with the halved sequence 3. -/
theorem timelock_halving_C1_witness :
    (proposeBTSForBTC cfgW pbfbEnvOkW 10).cfg.timelockBTS = 1800
    ∧ (proposeBTSForBTC cfgW pbfbEnvOkW 10).btcCreate.sequence = 6
    ∧ (takeBTCForBTS cfgW tbcbEnvW 10).cfg.timelockBTS = 1800
    ∧ (proposeBTCForBTS cfgW pbcbEnvW 10).cfg.timelockBTC = 3
    ∧ (takeBTSForBTC cfgW tbfbEnvOkW 10).btcCreate.map BTCCreateArgs.sequence
        = some 3 := by
  have h := timelock_halving_C1 cfgW pbfbEnvOkW pbcbEnvW tbfbEnvOkW tbcbEnvW 10
  refine ⟨?_, ?_, ?_, ?_, ?_⟩
  · rw [h.1.1]; decide
  · rw [h.1.2.2]; decide
  · rw [h.2.1.1]; decide
  · rw [h.2.2.1.1]; decide
  · have hbc : (takeBTSForBTC cfgW tbfbEnvOkW 10).btcCreate =
        some { transactionID := "beef", amount := 10000, sequence := 3
               hash := "h0" } := by decide
    have hseq := h.2.2.2.2.2
      { transactionID := "beef", amount := 10000, sequence := 3, hash := "h0" }
      (by rw [hbc]; rfl)
    rw [hbc, Option.map_some', hseq]
    decide

/-! ## C7: mutability of the shared secret -/

/-- Counterexample to C7 as stated: `takeBTSForBTC` assigns to
`config.secret.preimage` after the counterparty's redeem reveals it, so the
final config's secret differs from the parsed one (preimage "pp" replaces
"p0"). -/
theorem secret_mutated_counterexample_C7 :
    (takeBTSForBTC cfgW tbfbEnvOkW 10).cfg.secret ≠ cfgW.secret := by
  decide

/-- C7 (amended): the `hash` field of the secret is never assigned by any
flow, and the two proposer flows never assign to the secret at all; the two
accepter flows assign only `preimage`, exactly when a counterparty reveal
was extracted, and to that extracted value. -/
theorem secret_mutation_C7 (cfg : ACCSConfig) (envP : PBFBEnv)
    (envQ : PBCBEnv) (envT : TBFBEnv) (envU : TBCBEnv) (fuel : ℕ) :
    (proposeBTSForBTC cfg envP fuel).cfg.secret = cfg.secret
    ∧ (proposeBTCForBTS cfg envQ fuel).cfg.secret = cfg.secret
    ∧ (takeBTSForBTC cfg envT fuel).cfg.secret.hash = cfg.secret.hash
    ∧ (takeBTSForBTC cfg envT fuel).cfg.secret.preimage =
      (match (takeBTSForBTC cfg envT fuel).extractedPreimage with
       | some q => some q
       | none => cfg.secret.preimage)
    ∧ (takeBTCForBTS cfg envU fuel).cfg.secret.hash = cfg.secret.hash
    ∧ (takeBTCForBTS cfg envU fuel).cfg.secret.preimage =
      (match (takeBTCForBTS cfg envU fuel).extractedPreimage with
       | some q => some q
       | none => cfg.secret.preimage) := by
  refine ⟨?_, ?_, ?_, ?_, ?_, ?_⟩
  · rw [proposeBTSForBTC_cfg]
  · rw [proposeBTCForBTS_cfg]
  · exact (takeBTSForBTC_cfg_secret cfg envT fuel).1
  · exact (takeBTSForBTC_cfg_secret cfg envT fuel).2.1
  · exact (takeBTCForBTS_cfg_secret cfg envU fuel).1
  · exact (takeBTCForBTS_cfg_secret cfg envU fuel).2.1

/-! ## C8: unit conversion in parseUserInput -/

/-- C8: `parseUserInput` sets `amountSatoshi = round(a * 10^8)` and
`amountBTSMini = round(b * 10^5)`, where `(a, b)` is
`(amountToSend, amountToReceive)` when `currencyToGive` is BTC and
`(amountToReceive, amountToSend)` otherwise. -/
theorem unit_conversion_C8 (fields : ACCSFields) (env : ParseEnv) :
    (parseUserInput fields env).1.amountSatoshi =
      jsRound ((if fields.currencyToGive = "BTC" then fields.amountToSend
                else fields.amountToReceive) * 10 ^ 8)
    ∧ (parseUserInput fields env).1.amountBTSMini =
      jsRound ((if fields.currencyToGive = "BTC" then fields.amountToReceive
                else fields.amountToSend) * 10 ^ 5) := by
  constructor <;> by_cases h : fields.currencyToGive = "BTC" <;>
    simp [parseUserInput, h] <;> norm_num

/-! ## Flow unfolding equations -/

theorem proposeBTSForBTC_eq (cfg : ACCSConfig) (env : PBFBEnv) (fuel : ℕ) :
    proposeBTSForBTC cfg env fuel =
      pbfbFinish { cfg with timelockBTS := jsRoundDiv cfg.timelockBTS 2 } env
        { transactionID := cfg.bitcoinTxID, amount := cfg.amountSatoshi
          sequence := cfg.timelockBTC, hash := cfg.secret.hash }
        (getP2WSH cfg.networkName cfg.keyPairCompressedBTC
          cfg.counterpartyKeyPairCompressedBTC cfg.secret.hash cfg.timelockBTC)
        (pollLoop (pbfbCond (env.fundingHeight + cfg.timelockBTC))
          (pbfbStep env) 0 fuel 0 0 { success := false, height := 0 }) := rfl

theorem proposeBTCForBTS_eq (cfg : ACCSConfig) (env : PBCBEnv) (fuel : ℕ) :
    proposeBTCForBTS cfg env fuel =
      pbcbFinish { cfg with timelockBTC := jsRoundDiv cfg.timelockBTC 2 } env
        { amount := cfg.amountBTSMini, asset := cfg.bitsharesAsset
          time := cfg.timelockBTS, hash := cfg.secret.hash }
        (getP2WSH cfg.networkName cfg.counterpartyKeyPairCompressedBTC
          cfg.keyPairCompressedBTC cfg.secret.hash
          (jsRoundDiv cfg.timelockBTC 2))
        (pollLoop pbcbCond (pbcbStep env) 1 fuel
          (jsRoundDiv cfg.timelockBTS cfg.checkAPIInterval) 0 none) := rfl

theorem takeBTSForBTC_eq (cfg : ACCSConfig) (env : TBFBEnv) (fuel : ℕ) :
    takeBTSForBTC cfg env fuel =
      tbfbFinish1 { cfg with timelockBTC := jsRoundDiv cfg.timelockBTC 2 } env
        fuel
        (pollLoop tbfb1Cond (tbfb1Step env) cfg.checkAPIInterval fuel 300 0
          "") := rfl

theorem takeBTCForBTS_eq (cfg : ACCSConfig) (env : TBCBEnv) (fuel : ℕ) :
    takeBTCForBTS cfg env fuel =
      tbcbFinish1 { cfg with timelockBTS := jsRoundDiv cfg.timelockBTS 2 } env
        (getP2WSH cfg.networkName cfg.counterpartyKeyPairCompressedBTC
          cfg.keyPairCompressedBTC cfg.secret.hash cfg.timelockBTC)
        fuel
        (pollLoop tbcb1Cond (tbcb1Step env) cfg.checkAPIInterval fuel 1800 0
          none) := rfl

/-! ## Refund-path lemmas -/

theorem pbfbFinish_out_refund (cfg : ACCSConfig) (env : PBFBEnv)
    (c : BTCCreateArgs) (p : Payment) (st : PBFBSt) (n : ℕ) (ttw : ℤ)
    (h : st.success = false) :
    (pbfbFinish cfg env c p (.out st n ttw)).pushedRefund = some env.refundHex
    ∧ (pbfbFinish cfg env c p (.out st n ttw)).outcome =
        .refunded (env.pushTX env.refundHex) := by
  simp [pbfbFinish, h]

theorem pbfbFinish_out_redeemed (cfg : ACCSConfig) (env : PBFBEnv)
    (c : BTCCreateArgs) (p : Payment) (st : PBFBSt) (n : ℕ) (ttw : ℤ)
    (h : st.success = true) :
    (pbfbFinish cfg env c p (.out st n ttw)).pushedRefund = none
    ∧ (pbfbFinish cfg env c p (.out st n ttw)).outcome = .redeemed := by
  simp [pbfbFinish, h]

theorem tbfbFinish2_refund (cfg : ACCSConfig) (env : TBFBEnv)
    (l1 : LoopRes String) (id : String) (c : BTCCreateArgs) (p : Payment)
    (st : TBFBSt) (n : ℕ) (ttw : ℤ) :
    (st.preimage = none →
      (tbfbFinish2 cfg env l1 id c p (.out st n ttw)).pushedRefund =
        some env.refundHex
      ∧ ((tbfbFinish2 cfg env l1 id c p (.out st n ttw)).outcome =
            .refundFailed env.refundHex
         ∨ (tbfbFinish2 cfg env l1 id c p (.out st n ttw)).outcome =
            .refunded (env.pushTX env.refundHex)))
    ∧ ∀ q, st.preimage = some q →
      (tbfbFinish2 cfg env l1 id c p (.out st n ttw)).pushedRefund = none := by
  constructor
  · intro hp
    simp only [tbfbFinish2, hp]
    split
    · exact ⟨rfl, Or.inl rfl⟩
    · exact ⟨rfl, Or.inr rfl⟩
  · intro q hq
    simp [tbfbFinish2, hq]

/-! ## C2: refund broadcast exactly on timeout -/

/-- C2: in the two Bitcoin-funding flows, if the polling loop ends without
the counterparty having acted (`success` still false in `proposeBTSForBTC`,
no preimage extracted in `takeBTSForBTC`), the flow pushes the pre-built
refund hex returned by `create()` via `pushTX` and then throws; if the
counterparty did act before the loop ended, no refund is broadcast. -/
theorem refund_on_timeout_C2 (cfgP cfgT : ACCSConfig) (envP : PBFBEnv)
    (envT : TBFBEnv) (fuelP fuelT : ℕ) :
    (∀ st n ttw, (proposeBTSForBTC cfgP envP fuelP).loopRes = .out st n ttw →
      (st.success = false →
        (proposeBTSForBTC cfgP envP fuelP).pushedRefund = some envP.refundHex
        ∧ (proposeBTSForBTC cfgP envP fuelP).outcome =
            .refunded (envP.pushTX envP.refundHex))
      ∧ (st.success = true →
        (proposeBTSForBTC cfgP envP fuelP).pushedRefund = none))
    ∧ (∀ st n ttw,
        (takeBTSForBTC cfgT envT fuelT).loop2Res = some (.out st n ttw) →
      (st.preimage = none →
        (takeBTSForBTC cfgT envT fuelT).pushedRefund = some envT.refundHex
        ∧ ((takeBTSForBTC cfgT envT fuelT).outcome =
              .refundFailed envT.refundHex
           ∨ (takeBTSForBTC cfgT envT fuelT).outcome =
              .refunded (envT.pushTX envT.refundHex)))
      ∧ ∀ q, st.preimage = some q →
        (takeBTSForBTC cfgT envT fuelT).pushedRefund = none) := by
  constructor
  · intro st n ttw h
    rw [proposeBTSForBTC_eq] at h ⊢
    rw [pbfbFinish_loopRes] at h
    rw [h]
    constructor
    · intro hs
      exact pbfbFinish_out_refund _ _ _ _ _ _ _ hs
    · intro hs
      exact (pbfbFinish_out_redeemed _ _ _ _ _ _ _ hs).1
  · intro st n ttw h
    rw [takeBTSForBTC_eq] at h ⊢
    cases hl1 : pollLoop tbfb1Cond (tbfb1Step envT) cfgT.checkAPIInterval
        fuelT 300 0 "" with
    | out id n1 t1 =>
      rw [hl1] at h
      by_cases hid : id = ""
      · simp [tbfbFinish1, hid] at h
      · simp only [tbfbFinish1, hid, if_false] at h ⊢
        rw [tbfbFinish2_loop2Res] at h
        simp only [Option.some.injEq] at h
        rw [h]
        exact tbfbFinish2_refund _ _ _ _ _ _ _ _ _
    | thrown e => rw [hl1] at h; simp [tbfbFinish1] at h
    | fuelOut => rw [hl1] at h; simp [tbfbFinish1] at h

/-- Witness for C2: with a concrete config and oracles, the timed-out
`proposeBTSForBTC` and `takeBTSForBTC` runs push the refund hex "dead" and
throw, while the successful runs push nothing. -/
theorem refund_on_timeout_C2_witness :
    ((proposeBTSForBTC cfgW pbfbEnvFailW 10).pushedRefund = some "dead"
      ∧ (proposeBTSForBTC cfgW pbfbEnvFailW 10).outcome =
          .refunded "rtx")
    ∧ (proposeBTSForBTC cfgW pbfbEnvOkW 10).pushedRefund = none
    ∧ ((takeBTSForBTC cfgW tbfbEnvRefundW 10).pushedRefund = some "dead"
      ∧ ((takeBTSForBTC cfgW tbfbEnvRefundW 10).outcome =
            .refundFailed "dead"
         ∨ (takeBTSForBTC cfgW tbfbEnvRefundW 10).outcome =
            .refunded "rtx"))
    ∧ (takeBTSForBTC cfgW tbfbEnvOkW 10).pushedRefund = none := by
  have hfail := refund_on_timeout_C2 cfgW cfgW pbfbEnvFailW tbfbEnvRefundW 10 10
  have hok := refund_on_timeout_C2 cfgW cfgW pbfbEnvOkW tbfbEnvOkW 10 10
  refine ⟨?_, ?_, ?_, ?_⟩
  · exact (hfail.1 { success := false, height := 300 } 1 0 (by decide)).1 rfl
  · exact (hok.1 { success := true, height := 300 } 1 0 (by decide)).2 rfl
  · exact (hfail.2 { preimage := none, height := 0 } 0 0 (by decide)).1 rfl
  · exact (hok.2 { preimage := some "pp", height := 300 } 1 0 (by decide)).2
      "pp" rfl

/-! ## C5: amount sufficiency check in takeBTCForBTS -/

/-- C5: once `takeBTCForBTS` finds a funding transaction of the watched
P2WSH with value `v` (and passes the `timeToWait === 0` guard), it throws
before creating its own Bitshares HTLC when `v < amountSatoshi - fees.max`,
and otherwise proceeds to create the Bitshares HTLC. -/
theorem amount_check_C5 (cfg : ACCSConfig) (env : TBCBEnv) (fuel : ℕ)
    (tx : String) (v : ℤ) (n : ℕ) (ttw : ℤ)
    (hout : (takeBTCForBTS cfg env fuel).loop1Res = .out (some (tx, v)) n ttw)
    (httw : ttw ≠ 0) :
    (v < cfg.amountSatoshi - env.feeMax →
      (takeBTCForBTS cfg env fuel).btsCreate = none
      ∧ (takeBTCForBTS cfg env fuel).outcome = .insufficientAmount)
    ∧ (cfg.amountSatoshi - env.feeMax ≤ v →
      (takeBTCForBTS cfg env fuel).btsCreate =
        some { amount := cfg.amountBTSMini, asset := cfg.bitsharesAsset
               time := jsRoundDiv cfg.timelockBTS 2
               hash := cfg.secret.hash }) := by
  rw [takeBTCForBTS_eq] at hout ⊢
  rw [tbcbFinish1_loop1Res] at hout
  rw [hout]
  constructor
  · intro hlt
    simp only [tbcbFinish1, httw, if_false, Option.map_some', Option.getD_some]
    rw [if_pos hlt]
    exact ⟨rfl, rfl⟩
  · intro hge
    simp only [tbcbFinish1, httw, if_false, Option.map_some', Option.getD_some]
    rw [if_neg (not_lt.mpr hge)]
    rw [tbcbFinish2_btsCreate]

/-- Witness for C5: the accepter observes a funded P2WSH carrying exactly
`amountSatoshi - fees.max - 1 = 9499` satoshi and aborts without creating
the Bitshares HTLC. -/
theorem amount_check_C5_witness :
    (takeBTCForBTS cfgW tbcbEnvLowW 10).btsCreate = none
    ∧ (takeBTCForBTS cfgW tbcbEnvLowW 10).outcome = .insufficientAmount
    ∧ (9499 : ℤ) = cfgW.amountSatoshi - tbcbEnvLowW.feeMax - 1 := by
  have h := amount_check_C5 cfgW tbcbEnvLowW 10 "ftx" 9499 1 1796
    (by decide) (by decide)
  have h2 := h.1 (by decide)
  exact ⟨h2.1, h2.2, by decide⟩

/-! ## C9: input validation (none exists) -/

/-- Parse fixture for `run`-level facts. -/
def parseEnvW : ParseEnv :=
  { wifToPub := fun s => String.append "pub:" s
    toAccountID := fun _ _ => "1.2.20"
    getAccountID := fun _ => "1.2.21"
    timerToBTS := 3600 }

/-- All oracles bundled for `run`. -/
def runEnvW : RunEnv :=
  { parse := parseEnvW, pbfb := pbfbEnvOkW, pbcb := pbcbEnvW
    tbfb := tbfbEnvOkW, tbcb := tbcbEnvW }

/-- Fields with an unknown network, an out-of-range priority and an unknown
mode. -/
def fieldsBadW : ACCSFields :=
  { mode := "bar", networkToTrade := "foo", currencyToGive := "BTC"
    amountToSend := 1, rate := 1, amountToReceive := 1
    bitcoinPrivateKey := "wif", bitsharesPrivateKey := "wifBTS"
    counterpartyBitcoinPublicKey := "03bb"
    counterpartyBitsharesAccountName := "bob", bitcoinTxID := "beef"
    priority := 99, secret := secretW }

/-- Counterexample to C9 as stated: on fields with network "foo", priority
99 and mode "bar", `run` raises no input error at all — it opens the
Bitshares WebSocket (the first chain-facing action of parsing) and then
dispatches no flow, returning normally. -/
theorem input_validation_counterexample_C9 :
    fieldsBadW.networkToTrade = "foo" ∧ fieldsBadW.priority = 99
    ∧ fieldsBadW.mode = "bar"
    ∧ (run fieldsBadW runEnvW 10).2.head? =
        some (ParseAction.wsConnect "wss://testnet.dex.trading/")
    ∧ (run fieldsBadW runEnvW 10).1.isNoSwap = true := by
  refine ⟨rfl, rfl, rfl, by decide, by decide⟩

/-- C9 (amended): neither `parseUserInput` nor `run` validates anything:
parsing performs its chain I/O (WebSocket connection, account lookups, the
timer query) for every input, treating any network other than "mainnet" as
testnet and accepting any priority; and a mode matching neither "proposer"
nor "accepter" makes `run` dispatch no flow and return without error. -/
theorem no_input_validation_C9 (fields : ACCSFields) (env : RunEnv)
    (fuel : ℕ) :
    (parseUserInput fields env.parse).2 =
      [ParseAction.wsConnect
        (if fields.networkToTrade = "mainnet" then "wss://api.dex.trading/"
         else "wss://testnet.dex.trading/"),
       ParseAction.toAccountID fields.bitsharesPrivateKey
         fields.networkToTrade,
       ParseAction.getAccountID fields.counterpartyBitsharesAccountName,
       ParseAction.timerToBTS]
    ∧ (fields.mode ≠ "proposer" → fields.mode ≠ "accepter" →
        (run fields env fuel).1 =
          .noSwap (parseUserInput fields env.parse).1) := by
  constructor
  · rfl
  · intro h1 h2
    have hm : (parseUserInput fields env.parse).1.mode = fields.mode := rfl
    simp only [run, hm]
    simp [h1, h2]

/-- Witness for C9 (amended) at the invalid fields: the first parse action
is the WebSocket connection and `run` dispatches no flow. -/
theorem no_input_validation_C9_witness :
    (parseUserInput fieldsBadW runEnvW.parse).2.head? =
      some (ParseAction.wsConnect "wss://testnet.dex.trading/")
    ∧ (run fieldsBadW runEnvW 10).1 =
        .noSwap (parseUserInput fieldsBadW runEnvW.parse).1 := by
  have h := no_input_validation_C9 fieldsBadW runEnvW 10
  constructor
  · rw [h.1]
    decide
  · exact h.2 (by decide) (by decide)

/-! ## C10: counterparties compute the same P2WSH -/

/-- The accepter's config matching `cfgW` with the Bitcoin key roles
swapped. -/
def cfgAW : ACCSConfig :=
  { cfgW with
    mode := "accepter"
    keyPairCompressedBTC := "03bb"
    counterpartyKeyPairCompressedBTC := "02aa" }

/-- C10: for two parties whose configs agree on the secret hash, the
unhalved `timelockBTC`, the network, and the Bitcoin keys with
sender/receiver roles swapped, the P2WSH that `takeBTCForBTS` watches
(computed with the unhalved `timelockBTC`) equals the P2WSH that
`proposeBTSForBTC` funds, and the P2WSH that `proposeBTCForBTS` watches
equals the one `takeBTSForBTC` funds (both independently computing
`round(timelockBTC / 2)`). -/
theorem p2wsh_recognition_C10 (cfgP cfgA : ACCSConfig) (envP : PBFBEnv)
    (envU : TBCBEnv) (envQ : PBCBEnv) (envT : TBFBEnv)
    (fuelP fuelU fuelQ fuelT : ℕ)
    (hnet : cfgA.networkName = cfgP.networkName)
    (hhash : cfgA.secret.hash = cfgP.secret.hash)
    (hseq : cfgA.timelockBTC = cfgP.timelockBTC)
    (hk1 : cfgA.keyPairCompressedBTC = cfgP.counterpartyKeyPairCompressedBTC)
    (hk2 : cfgA.counterpartyKeyPairCompressedBTC =
      cfgP.keyPairCompressedBTC) :
    (takeBTCForBTS cfgA envU fuelU).watchedP2WSH =
      (proposeBTSForBTC cfgP envP fuelP).fundedP2WSH
    ∧ ∀ pay ∈ (takeBTSForBTC cfgA envT fuelT).fundedP2WSH,
        pay = (proposeBTCForBTS cfgP envQ fuelQ).watchedP2WSH := by
  constructor
  · rw [takeBTCForBTS_watchedP2WSH, proposeBTSForBTC_fundedP2WSH, hnet,
      hhash, hseq, hk1, hk2]
  · intro pay hp
    have hpay := takeBTSForBTC_fundedP2WSH cfgA envT fuelT pay hp
    rw [hpay, proposeBTCForBTS_watchedP2WSH, hnet, hhash, hseq, hk1, hk2]

/-- Witness for C10 with `cfgW` (proposer) and `cfgAW` (accepter, roles
swapped): both watched/funded P2WSH pairs coincide. -/
theorem p2wsh_recognition_C10_witness :
    (takeBTCForBTS cfgAW tbcbEnvW 10).watchedP2WSH =
      (proposeBTSForBTC cfgW pbfbEnvOkW 10).fundedP2WSH
    ∧ (takeBTSForBTC cfgAW tbfbEnvOkW 10).fundedP2WSH =
        some ((proposeBTCForBTS cfgW pbcbEnvW 10).watchedP2WSH) := by
  have h := p2wsh_recognition_C10 cfgW cfgAW pbfbEnvOkW tbcbEnvW pbcbEnvW
    tbfbEnvOkW 10 10 10 10 rfl rfl rfl rfl rfl
  constructor
  · exact h.1
  · have hsome : (takeBTSForBTC cfgAW tbfbEnvOkW 10).fundedP2WSH =
        some (getP2WSH "testnet" "03bb" "02aa" "h0" 3) := by decide
    rw [hsome,
      h.2 (getP2WSH "testnet" "03bb" "02aa" "h0" 3) (by rw [hsome]; rfl)]

/-! ## C6: the block-height polling horizon -/

theorem tbfbFinish2_loop1Res (cfg : ACCSConfig) (env : TBFBEnv)
    (l1 : LoopRes String) (id : String) (c : BTCCreateArgs) (p : Payment)
    (l : LoopRes TBFBSt) : (tbfbFinish2 cfg env l1 id c p l).loop1Res = l1 := by
  cases l with
  | out st n ttw =>
    cases hp : st.preimage with
    | none => simp only [tbfbFinish2, hp]; split <;> rfl
    | some q => simp only [tbfbFinish2, hp]
  | thrown e => rfl
  | fuelOut => rfl

theorem tbfbFinish1_loop1Res (cfg : ACCSConfig) (env : TBFBEnv) (fuel : ℕ)
    (l : LoopRes String) : (tbfbFinish1 cfg env fuel l).loop1Res = l := by
  cases l with
  | out id n ttw =>
    simp only [tbfbFinish1]
    split
    · rfl
    · exact tbfbFinish2_loop1Res _ _ _ _ _ _ _
  | thrown e => rfl
  | fuelOut => rfl

theorem takeBTSForBTC_loop1Res (cfg : ACCSConfig) (env : TBFBEnv)
    (fuel : ℕ) :
    (takeBTSForBTC cfg env fuel).loop1Res =
      pollLoop tbfb1Cond (tbfb1Step env) cfg.checkAPIInterval fuel 300 0 "" :=
  tbfbFinish1_loop1Res _ _ _ _

/-- `takeBTSForBTC` oracle whose preimage query rejects at the first
iteration and would succeed at the next — the missing catch handler makes
the first rejection abort the flow. -/
def tbfbEnvErrW : TBFBEnv :=
  { tbfbEnvOkW with
    getPreimage := fun n => if n = 0 then .error "boom" else .ok "pp" }

/-- Counterexample to C3 as stated: in `takeBTSForBTC`'s preimage-
extraction loop (accs.ts 463-472) the `getPreimageFromLastTransaction`
call has no catch handler, so its rejection at iteration 0 is NOT
swallowed: it ends the loop and the whole flow with that error (no refund
is pushed), even though the next iteration would have found the preimage. -/
theorem error_swallowing_counterexample_C3 :
    tbfbEnvErrW.getPreimage 0 = .error "boom"
    ∧ tbfbEnvErrW.getPreimage 1 = .ok "pp"
    ∧ (takeBTSForBTC cfgW tbfbEnvErrW 10).outcome = .chainError "boom"
    ∧ (takeBTSForBTC cfgW tbfbEnvErrW 10).pushedRefund = none := by
  exact ⟨rfl, rfl, by decide, by decide⟩

/-- C3 (amended): in the five polling loops whose probe call carries a
catch handler (the Bitshares redeem in `proposeBTSForBTC`, the
`getValueFromLastTransaction` probes of `proposeBTCForBTS` and
`takeBTCForBTS`, the `getID` probe of `takeBTSForBTC` and the
`getPreimageFromHTLC` probe of `takeBTCForBTS`), a rejected probe is
caught and swallowed and the loop proceeds to its next iteration with the
state unchanged; but in `takeBTSForBTC`'s preimage-extraction loop the
`getPreimageFromLastTransaction` call is unguarded and its rejection is
thrown out of the loop. -/
theorem error_swallowing_C3 :
    (∀ (env : PBFBEnv) (maxH ttw : ℤ) (fuel n : ℕ) (st : PBFBSt)
        (e : String),
      env.redeemResult n = .error e → pbfbCond maxH st ttw = true →
      pollLoop (pbfbCond maxH) (pbfbStep env) 0 (fuel + 1) ttw n st =
        pollLoop (pbfbCond maxH) (pbfbStep env) 0 fuel (ttw - 0) (n + 1)
          { success := st.success, height := env.lastBlock n })
    ∧ (∀ (env : PBCBEnv) (ttw : ℤ) (fuel n : ℕ) (st : Option String)
        (e : String),
      env.getValue n = .error e → pbcbCond st ttw = true →
      pollLoop pbcbCond (pbcbStep env) 1 (fuel + 1) ttw n st =
        pollLoop pbcbCond (pbcbStep env) 1 fuel (ttw - 1) (n + 1) st)
    ∧ (∀ (env : TBCBEnv) (dec ttw : ℤ) (fuel n : ℕ)
        (st : Option (String × ℤ)) (e : String),
      env.getValue n = .error e → tbcb1Cond st ttw = true →
      pollLoop tbcb1Cond (tbcb1Step env) dec (fuel + 1) ttw n st =
        pollLoop tbcb1Cond (tbcb1Step env) dec fuel (ttw - dec) (n + 1) st)
    ∧ (∀ (env : TBCBEnv) (ttw : ℤ) (fuel n : ℕ) (st : String) (e : String),
      env.getPreimageHTLC n = .error e → tbcb2Cond st ttw = true →
      pollLoop tbcb2Cond (tbcb2Step env) 1 (fuel + 1) ttw n st =
        pollLoop tbcb2Cond (tbcb2Step env) 1 fuel (ttw - 1) (n + 1) st)
    ∧ (∀ (env : TBFBEnv) (dec ttw : ℤ) (fuel n : ℕ) (st : String)
        (e : String),
      env.getID n = .error e → tbfb1Cond st ttw = true →
      pollLoop tbfb1Cond (tbfb1Step env) dec (fuel + 1) ttw n st =
        pollLoop tbfb1Cond (tbfb1Step env) dec fuel (ttw - dec) (n + 1) st)
    ∧ (∀ (env : TBFBEnv) (maxH ttw : ℤ) (fuel n : ℕ) (st : TBFBSt)
        (e : String),
      env.getPreimage n = .error e → tbfb2Cond maxH st ttw = true →
      pollLoop (tbfb2Cond maxH) (tbfb2Step env) 0 (fuel + 1) ttw n st =
        .thrown e) := by
  refine ⟨?_, ?_, ?_, ?_, ?_, ?_⟩
  · intro env maxH ttw fuel n st e he hc
    rw [pollLoop_go hc]
    simp [pbfbStep, he]
  · intro env ttw fuel n st e he hc
    rw [pollLoop_go hc]
    simp [pbcbStep, he]
  · intro env dec ttw fuel n st e he hc
    rw [pollLoop_go hc]
    simp [tbcb1Step, he]
  · intro env ttw fuel n st e he hc
    rw [pollLoop_go hc]
    simp [tbcb2Step, he]
  · intro env dec ttw fuel n st e he hc
    rw [pollLoop_go hc]
    simp [tbfb1Step, he]
  · intro env maxH ttw fuel n st e he hc
    rw [pollLoop_go hc]
    simp [tbfb2Step, he]

/-- Erroring oracles for the C3 witness. -/
def pbfbEnvErrW : PBFBEnv :=
  { pbfbEnvFailW with redeemResult := fun _ => .error "nf" }

def pbcbEnvErrW : PBCBEnv :=
  { getValue := fun _ => .error "nf", finalRedeem := .ok () }

def tbcbEnvErrW : TBCBEnv :=
  { tbcbEnvW with
    getValue := fun _ => .error "nf"
    getPreimageHTLC := fun _ => .error "nf" }

def tbfbEnvErr2W : TBFBEnv :=
  { tbfbEnvOkW with getID := fun _ => .error "nf" }

/-- Witness for C3 (amended) at concrete oracles: each guarded loop steps
past a rejected probe with its state unchanged, and the unguarded preimage
loop of `takeBTSForBTC` throws. -/
theorem error_swallowing_C3_witness :
    pollLoop (pbfbCond 106) (pbfbStep pbfbEnvErrW) 0 5 0 0
        { success := false, height := 0 } =
      pollLoop (pbfbCond 106) (pbfbStep pbfbEnvErrW) 0 4 (0 - 0) 1
        { success := false, height := 300 }
    ∧ pollLoop pbcbCond (pbcbStep pbcbEnvErrW) 1 5 450 0 none =
        pollLoop pbcbCond (pbcbStep pbcbEnvErrW) 1 4 (450 - 1) 1 none
    ∧ pollLoop tbcb1Cond (tbcb1Step tbcbEnvErrW) 4 5 1800 0 none =
        pollLoop tbcb1Cond (tbcb1Step tbcbEnvErrW) 4 4 (1800 - 4) 1 none
    ∧ pollLoop tbcb2Cond (tbcb2Step tbcbEnvErrW) 1 5 1800 0 "" =
        pollLoop tbcb2Cond (tbcb2Step tbcbEnvErrW) 1 4 (1800 - 1) 1 ""
    ∧ pollLoop tbfb1Cond (tbfb1Step tbfbEnvErr2W) 4 5 300 0 "" =
        pollLoop tbfb1Cond (tbfb1Step tbfbEnvErr2W) 4 4 (300 - 4) 1 ""
    ∧ pollLoop (tbfb2Cond 103) (tbfb2Step tbfbEnvErrW) 0 5 0 0
        { preimage := none, height := 0 } = .thrown "boom" := by
  have h := error_swallowing_C3
  refine ⟨?_, ?_, ?_, ?_, ?_, ?_⟩
  · have := h.1 pbfbEnvErrW 106 0 4 0 { success := false, height := 0 } "nf"
      rfl (by decide)
    simpa [pbfbEnvErrW, pbfbEnvFailW] using this
  · exact h.2.1 pbcbEnvErrW 450 4 0 none "nf" rfl (by decide)
  · exact h.2.2.1 tbcbEnvErrW 4 1800 4 0 none "nf" rfl (by decide)
  · exact h.2.2.2.1 tbcbEnvErrW 1800 4 0 "" "nf" rfl (by decide)
  · exact h.2.2.2.2.1 tbfbEnvErr2W 4 300 4 0 "" "nf" rfl (by decide)
  · exact h.2.2.2.2.2 tbfbEnvErrW 103 0 4 0 { preimage := none, height := 0 }
      "boom" rfl (by decide)

/-! ## C4: what bounds each polling wait -/

theorem tbcb1Cond_pos : ∀ (st : Option (String × ℤ)) (ttw : ℤ),
    tbcb1Cond st ttw = true → 0 < ttw := by
  intro st ttw h
  simp only [tbcb1Cond, Bool.and_eq_true, decide_eq_true_eq] at h
  exact h.2

theorem tbcb2Cond_pos : ∀ (st : String) (ttw : ℤ),
    tbcb2Cond st ttw = true → 0 < ttw := by
  intro st ttw h
  simp only [tbcb2Cond, Bool.and_eq_true, decide_eq_true_eq] at h
  exact h.2

theorem tbfb1Cond_pos : ∀ (st : String) (ttw : ℤ),
    tbfb1Cond st ttw = true → 0 < ttw := by
  intro st ttw h
  simp only [tbfb1Cond, Bool.and_eq_true, decide_eq_true_eq] at h
  exact h.2

theorem pbcbCond_pos : ∀ (st : Option String) (ttw : ℤ),
    pbcbCond st ttw = true → 0 < ttw := by
  intro st ttw h
  simp only [pbcbCond, Bool.and_eq_true, decide_eq_true_eq] at h
  exact h.2

/-- If `takeBTCForBTS` records a normal second-loop exit, the
counterparty-redeem countdown loop (started at the halved `timelockBTS`)
produced it. -/
theorem tbcbFinish1_loop2Res_out (cfg : ACCSConfig) (env : TBCBEnv)
    (p : Payment) (fuel : ℕ) (l : LoopRes (Option (String × ℤ)))
    (pre : String) (n : ℕ) (ttw : ℤ)
    (h : (tbcbFinish1 cfg env p fuel l).loop2Res = some (.out pre n ttw)) :
    pollLoop tbcb2Cond (tbcb2Step env) 1 fuel cfg.timelockBTS 0 "" =
      .out pre n ttw := by
  cases l with
  | out st1 n1 t1 =>
    simp only [tbcbFinish1] at h
    split at h
    · simp at h
    · split at h
      · simp at h
      · rw [tbcbFinish2_loop2Res] at h
        simp only [Option.some.injEq] at h
        exact h
  | thrown e => simp [tbcbFinish1] at h
  | fuelOut => simp [tbcbFinish1] at h

/-- A config whose Bitshares timelock horizon is only 8 seconds. -/
def cfgSmallTLW : ACCSConfig := { cfgW with timelockBTS := 8 }

/-- `takeBTCForBTS` oracle that only finds the Bitcoin HTLC at the 11th
probe (44 seconds in). -/
def tbcbEnvLateW : TBCBEnv :=
  { tbcbEnvW with
    getValue := fun n => if n < 10 then .error "nf" else .ok ("ftx", 9600) }

/-- Counterexample to C4 as stated: with `timelockBTS = 8` seconds (so the
accepter's timelock horizon is two 4-second probes at most), the first
polling loop of `takeBTCForBTS` is still probing at iteration 11 — its
bound is the fixed 1800-second constant, not the party's timelock horizon,
and the wait for this Bitcoin-side event is measured in seconds, not
blocks. -/
theorem polling_bounds_counterexample_C4 :
    cfgSmallTLW.timelockBTS = 8 ∧ cfgSmallTLW.checkAPIInterval = 4
    ∧ (takeBTCForBTS cfgSmallTLW tbcbEnvLateW 20).loop1Res =
        .out (some ("ftx", 9600)) 11 1756
    ∧ (8 : ℤ) / 4 + 1 < 11 := by
  refine ⟨rfl, rfl, by decide, by decide⟩

/-- C4 (amended): the polling waits are bounded, but not all by the
waiting party's timelock horizon: the accepter's first-leg waits are
bounded by fixed constants — at most `⌈1800 / checkAPIInterval⌉` probes in
`takeBTCForBTS` and `⌈300 / checkAPIInterval⌉` probes in `takeBTSForBTC`,
independent of any timelock — while `proposeBTCForBTS`'s wait is bounded
by `round(timelockBTS / checkAPIInterval)` probes and `takeBTCForBTS`'s
second wait by `round(timelockBTS / 2)` one-second probes (the block-height
loops are bounded by the block horizon; see the C6 development). -/
theorem polling_bounds_C4 (cfgU cfgT cfgQ : ACCSConfig) (envU : TBCBEnv)
    (envT : TBFBEnv) (envQ : PBCBEnv) (fuelU fuelT fuelQ : ℕ) :
    (∀ st n ttw, 0 < cfgU.checkAPIInterval →
      (takeBTCForBTS cfgU envU fuelU).loop1Res = .out st n ttw →
      (n : ℤ) ≤
        max 0 ((1800 + cfgU.checkAPIInterval - 1) / cfgU.checkAPIInterval))
    ∧ (∀ st n ttw, 0 < cfgT.checkAPIInterval →
      (takeBTSForBTC cfgT envT fuelT).loop1Res = .out st n ttw →
      (n : ℤ) ≤
        max 0 ((300 + cfgT.checkAPIInterval - 1) / cfgT.checkAPIInterval))
    ∧ (∀ st n ttw, (proposeBTCForBTS cfgQ envQ fuelQ).loopRes = .out st n ttw →
      (n : ℤ) ≤ max 0 (jsRoundDiv cfgQ.timelockBTS cfgQ.checkAPIInterval))
    ∧ (∀ pre n ttw,
        (takeBTCForBTS cfgU envU fuelU).loop2Res = some (.out pre n ttw) →
      (n : ℤ) ≤ max 0 (jsRoundDiv cfgU.timelockBTS 2)) := by
  refine ⟨?_, ?_, ?_, ?_⟩
  · intro st n ttw hdec h
    rw [takeBTCForBTS_loop1Res] at h
    have := pollLoop_out_iters hdec tbcb1Cond_pos h
    simpa using this
  · intro st n ttw hdec h
    rw [takeBTSForBTC_loop1Res] at h
    have := pollLoop_out_iters hdec tbfb1Cond_pos h
    simpa using this
  · intro st n ttw h
    rw [proposeBTCForBTS_loopRes] at h
    have := pollLoop_out_iters (by norm_num) pbcbCond_pos h
    simpa using this
  · intro pre n ttw h
    rw [takeBTCForBTS_eq] at h
    have h2 := tbcbFinish1_loop2Res_out _ _ _ _ _ _ _ _ h
    have := pollLoop_out_iters (by norm_num) tbcb2Cond_pos h2
    simpa using this

/-- Witness for C4 (amended) at concrete runs of all four countdown
loops. -/
theorem polling_bounds_C4_witness :
    ((1 : ℤ) ≤
      max 0 ((1800 + cfgW.checkAPIInterval - 1) / cfgW.checkAPIInterval))
    ∧ ((1 : ℤ) ≤
      max 0 ((300 + cfgW.checkAPIInterval - 1) / cfgW.checkAPIInterval))
    ∧ ((1 : ℤ) ≤ max 0 (jsRoundDiv cfgW.timelockBTS cfgW.checkAPIInterval))
    ∧ ((1 : ℤ) ≤ max 0 (jsRoundDiv cfgW.timelockBTS 2)) := by
  have h := polling_bounds_C4 cfgW cfgW cfgW tbcbEnvW tbfbEnvOkW pbcbEnvW
    10 10 10
  refine ⟨?_, ?_, ?_, ?_⟩
  · exact h.1 (some ("ftx", 9600)) 1 1796 (by decide) (by decide)
  · exact h.2.1 "1.16.5" 1 296 (by decide) (by decide)
  · exact h.2.2.1 (some "ftx") 1 899 (by decide)
  · exact h.2.2.2 "pp" 1 1799 (by decide)
